import Mathlib

/-!
Verification of the form-control synchronization engine of
`src/form-control-element.ts` (the `getFormControlElement` class factory).

The development shallowly embeds the class: the descriptor union
(`FormControlType`), the controller state (private fields plus the
`ElementInternals` cells the code writes), the bound native input as a view
record, and each setter/callback as a state-transition function, translated
line by line from the source.  JavaScript numbers are modelled as `Option ℚ`
(`none` is `NaN`; finite doubles are rationals, and every numeric literal the
claims touch is decimal, so the rational model is exact on them).
Computations that may fail to complete normally in the source (an exception,
or the unbounded step-mismatch search loop) return `Option`/`Except` values,
`none`/`error` standing for abnormal termination.
-/

namespace S2P

/-! ## JavaScript value model -/

/-- A non-null `FormControlValue` (`File | string | FormData`).  `File` and
`FormData` instances are compared by reference in the source (`===`), which
the numeric identity models. -/
inductive FCVal where
  | str (s : String)
  | file (id : Nat)
  | formData (id : Nat)
deriving DecidableEq, Repr

/-- `FormControlValue` including `null`. -/
abbrev FCValue := Option FCVal

/-- `string | number` fields (`min`, `max`, `step`). -/
inductive StrNum where
  | s (v : String)
  | n (v : ℚ)
deriving DecidableEq, Repr

/-- JS `String(v)` on a `FormControlValue` (`String(null) = "null"`;
objects stringify with their class tag). -/
def jsStrOfValue : FCValue → String
  | none => "null"
  | some (.str s) => s
  | some (.file _) => "[object File]"
  | some (.formData _) => "[object FormData]"

/-- Numeric value of a digit string. -/
def natOfDigits (cs : List Char) : Nat :=
  cs.foldl (fun a c => a * 10 + (c.toNat - 48)) 0

/-- Split a character list at each occurrence of the two-character
separator `a b`, scanning left to right without overlap (the behaviour of
both `String.prototype.split` and a global regex replace for the
two-character patterns the source uses). -/
def splitOn2 (a b : Char) : List Char → List (List Char)
  | [] => [[]]
  | [c] => [[c]]
  | c :: d :: rest =>
    if c = a ∧ d = b then [] :: splitOn2 a b rest
    else
      match splitOn2 a b (d :: rest) with
      | [] => [[c]]
      | x :: xs => (c :: x) :: xs

/-- Rejoin pieces with a two-character separator (inverse of `splitOn2`). -/
def joinSep2 (a b : Char) : List (List Char) → List Char
  | [] => []
  | [x] => x
  | x :: xs => x ++ [a, b] ++ joinSep2 a b xs

/-- JS `String.prototype.replace` with a plain two-character pattern:
replaces the first occurrence only. -/
def replaceFirst2 (a b : Char) (rep : List Char) (s : List Char) : List Char :=
  match splitOn2 a b s with
  | [] => s
  | [x] => x
  | x :: rest => x ++ rep ++ joinSep2 a b rest

/-- JS `String.prototype.replace(needle, rep)` for a two-character needle,
on `String`. -/
def jsReplaceFirst (s : String) (a b : Char) (rep : String) : String :=
  String.mk (replaceFirst2 a b rep.data s.data)

/-- Whitespace trimming (JS `Number(string)` trims before parsing). -/
def trimChars (cs : List Char) : List Char :=
  ((cs.dropWhile Char.isWhitespace).reverse.dropWhile Char.isWhitespace).reverse

/-- JS `Number(string)` restricted to the decimal fragment: optional sign,
decimal digits with an optional fraction; the empty (or all-whitespace)
string is `0`.  `none` is `NaN`.  Forms outside this fragment (hex,
exponents, `Infinity`) are outside the modelled inputs. -/
def jsNumber (s : String) : Option ℚ :=
  let t := trimChars s.data
  if t.isEmpty then some 0
  else
    let signAndRest : ℚ × List Char :=
      match t with
      | '-' :: r => (-1, r)
      | '+' :: r => (1, r)
      | _ => (1, t)
    let sgn := signAndRest.1
    let cs := signAndRest.2
    let intPart := cs.takeWhile Char.isDigit
    let rest := cs.drop intPart.length
    match rest with
    | [] =>
      if intPart.isEmpty then none
      else some (sgn * (natOfDigits intPart : ℚ))
    | '.' :: fr =>
      let frac := fr.takeWhile Char.isDigit
      if ¬(fr.drop frac.length).isEmpty then none
      else if intPart.isEmpty ∧ frac.isEmpty then none
      else some (sgn * ((natOfDigits intPart : ℚ) +
        (natOfDigits frac : ℚ) / (10 ^ frac.length : ℚ)))
    | _ => none

/-- JS `Number(x)` for a `string | number | undefined` field
(`Number(undefined) = NaN`). -/
def jsNumberOfStrNum : Option StrNum → Option ℚ
  | none => none
  | some (.n q) => some q
  | some (.s s) => jsNumber s

/-- JS `Number(x)` for a `FormControlValue` (`Number(null) = 0`; objects
stringify to `[object …]` which is `NaN`). -/
def jsNumberOfValue : FCValue → Option ℚ
  | none => some 0
  | some (.str s) => jsNumber s
  | some _ => none

/-- Truncation toward zero (the rounding JS `%` uses). -/
def ratTrunc (q : ℚ) : ℤ :=
  if 0 ≤ q.num then ((q.num.toNat / q.den : ℕ) : ℤ)
  else -(((-q.num).toNat / q.den : ℕ) : ℤ)

/-- JS remainder `a % b` (sign of the dividend; `x % 0 = NaN`; `NaN`
propagates). -/
def jsRem : Option ℚ → Option ℚ → Option ℚ
  | some a, some b => if b = 0 then none else some (a - b * (ratTrunc (a / b) : ℚ))
  | _, _ => none

/-- JS `<` on numbers (`NaN` compares false). -/
def jsLt : Option ℚ → Option ℚ → Bool
  | some a, some b => decide (a < b)
  | _, _ => false

/-- JS `>` on numbers (`NaN` compares false). -/
def jsGt : Option ℚ → Option ℚ → Bool
  | some a, some b => decide (b < a)
  | _, _ => false

/-- Decimal digits of a natural number (structural fuel recursion so the
kernel can evaluate it). -/
def natDigitsAux : Nat → Nat → List Char
  | 0, _ => []
  | fuel + 1, n =>
    if n < 10 then [Char.ofNat (48 + n)]
    else natDigitsAux fuel (n / 10) ++ [Char.ofNat (48 + n % 10)]

/-- Decimal rendering of a natural number. -/
def natToString (n : Nat) : String := String.mk (natDigitsAux (n + 1) n)

/-- JS `String(i)` for an integer-valued number. -/
def intToString (i : Int) : String :=
  if i < 0 then "-" ++ natToString (-i).toNat else natToString i.toNat

/-- Decimal digit rendering of `n / d` for positive naturals; exact when the
denominator divides a power of ten (always the case for the finite decimal
values the source manipulates), truncated at 40 fractional digits
otherwise. -/
def decimalString (n d : Nat) : String :=
  let ip := n / d
  let r0 := n % d
  if r0 = 0 then natToString ip
  else
    let fracDigits : Nat × List Nat :=
      (List.range 40).foldl
        (fun st _ =>
          let r := st.1
          if r = 0 then st
          else (r * 10 % d, st.2 ++ [r * 10 / d]))
        (r0, [])
    natToString ip ++ "." ++ String.mk (fracDigits.2.map (fun k => Char.ofNat (48 + k)))

/-- JS `String(number)` for the finite decimal fragment. -/
def jsNumToString (q : ℚ) : String :=
  if q.num < 0 then "-" ++ decimalString (-q.num).toNat q.den
  else decimalString q.num.toNat q.den

/-- JS `String(number)` where the number may be `NaN`. -/
def jsNumStrOpt : Option ℚ → String
  | none => "NaN"
  | some q => jsNumToString q

/-- JS `String(x)` for a `string | number | undefined` field. -/
def strOfOptStrNum : Option StrNum → String
  | none => "undefined"
  | some (.s s) => s
  | some (.n q) => jsNumToString q

/-- Helper for `parseVariables`: interleave the remaining template pieces
with the successive values. -/
def interleavePieces : List (List Char) → List String → String
  | [], _ => ""
  | p :: ps, vs => (vs.headD "undefined") ++ String.mk p ++ interleavePieces ps vs.tail

/-- `parseVariables` (source line 833): replaces each `{}` in the template
with the next value, already stringified; exhausted values print as
`String(undefined) = "undefined"`. -/
def parseVariables (str : String) (values : List String) : String :=
  match splitOn2 '\x7b' '\x7d' str.data with
  | [] => str
  | p :: ps => String.mk p ++ interleavePieces ps values

end S2P

namespace S2P

/-! ## Descriptor model (`FormControlType`) -/

/-- The `FormControlType` tagged union, flattened: the discriminant is the
`control` string and every variant field is optional (`none` = the key is
absent; fields outside a variant are ignored by the code, matching the
source's runtime behaviour).  A key present but set to `undefined` is
outside the model (it only matters to the `'defaultChecked' in …` test). -/
structure FormControl where
  control : String
  value : FCValue := none
  name : Option String := none
  disabled : Option Bool := none
  required : Option Bool := none
  readonly : Option Bool := none
  placeholder : Option String := none
  pattern : Option String := none
  minLength : Option Int := none
  maxLength : Option Int := none
  min : Option StrNum := none
  max : Option StrNum := none
  step : Option StrNum := none
  checked : Option Bool := none
  defaultChecked : Option Bool := none
  typ : Option String := none
  accept : Option String := none
  multiple : Option Bool := none
  files : Option Nat := none
deriving DecidableEq, Repr

/-- `RANGE_CONTROLS` (source line 740). -/
def RANGE_CONTROLS : List String :=
  ["range", "time", "date", "datetime-local", "month", "week"]

/-- `isRangeOrNumberFormControl` (source line 742). -/
def isRangeOrNumberFormControl (fc : FormControl) : Bool :=
  fc.control == "number" || RANGE_CONTROLS.contains fc.control

/-- `isTextFormControl` (source line 772); the argument is optional in the
source. -/
def isTextFormControl : Option FormControl → Bool
  | none => false
  | some fc =>
    ["text", "password", "email", "tel", "url", "search", "number"].contains fc.control

/-- `DEFAULT_FORM_CONTROL` (source line 816). -/
def DEFAULT_FORM_CONTROL : FormControl :=
  { control := "text", value := none, disabled := some false,
    required := some false, readonly := some false }

/-! ## Validity messages (source lines 824-831) -/

def MISSING_MESSAGE : String := "Please fill out this field."
def RANGE_UNDERFLOW_MESSAGE : String := "Value must be greater than or equal to \x7b\x7d."
def RANGE_OVERFLOW_MESSAGE : String := "Value must be less than or equal to \x7b\x7d."
def STEP_MISMATCH_MESSAGE : String :=
  "Please enter a valid value. The two nearest valid values are \x7b\x7d and \x7b\x7d."
def TYPE_MISMATCH_MESSAGE : String := "Please enter a valid value."
def PATTERN_MISMATCH_MESSAGE : String := "Please match the requested format."
def TOO_LONG_MESSAGE : String := "Please shorten this text to no more than \x7b\x7d characters."
def TOO_SHORT_MESSAGE : String := "Please lengthen this text to \x7b\x7d characters or more."

/-! ## Validity engine (`#convertForComparison`, `#updateValidity`) -/

/-- The browser facilities the validity engine consumes: `Date` parsing
(as a millisecond value, `none` = invalid date), today's ISO day (used by
the `time` branch), and `RegExp` construction (`none` = the constructor
throws on the given pattern source). -/
structure Platform where
  dateValue : String → Option ℚ
  todayIso : String
  compileRegex : String → Option (String → Bool)

/-- A concrete platform instance used by witnesses: no date string parses,
no pattern compiles to a matching regex. -/
def defaultPlatform : Platform :=
  { dateValue := fun _ => none
    todayIso := "2026-10-11"
    compileRegex := fun _ => some (fun _ => false) }

/-- The argument of `#convertForComparison`: `number | FormControlValue`. -/
inductive ConvArg where
  | num (q : ℚ)
  | v (x : FCValue)

/-- Lift a present `min`/`max` field (`string | number`) into the
conversion argument. -/
def convArgOfStrNum : StrNum → ConvArg
  | .n q => .num q
  | .s s => .v (some (.str s))

/-- `#convertForComparison` (source lines 1282-1304).  A number argument is
stringified first and then treated as a string; `Date`-producing branches
go through the platform, and a `Date` compares via its millisecond value,
so the result type collapses to `Option ℚ` (`none` = `NaN`/invalid date). -/
def convertForComparison (P : Platform) (control : String) (a : ConvArg) : Option ℚ :=
  let value : Option String :=
    match a with
    | .num q => some (jsNumToString q)
    | .v (some (.str s)) => some s
    | .v _ => none
  match value with
  | none => some 0
  | some v =>
    if control = "date" then P.dateValue v
    else if control = "time" then P.dateValue (P.todayIso ++ "T" ++ v)
    else if control = "datetime-local" then P.dateValue v
    else if control = "month" then P.dateValue (v ++ "-01")
    else if control = "week" then
      let decimal := jsReplaceFirst v '-' 'W' "."
      if decimal = "" then some 0 else jsNumber decimal
    else jsNumber v

/-- Floor of a rational (explicit, kernel-computable). -/
def ratFloor (q : ℚ) : ℤ := Int.ediv q.num q.den

/-- JS `===` on two numbers (`NaN === NaN` is false). -/
def jsStrictEqNum : Option ℚ → Option ℚ → Bool
  | some a, some b => a == b
  | _, _ => false

/-- The nearest-valid-values search loop of the step-mismatch message
(source lines 1354-1359): `for (let i = min; i <= value + step; i += step)`
starting from `lowNearest = min`, `highNearest = max`.  A `NaN` bound makes
the loop condition false at entry (zero iterations).  When the loop runs
with `step ≤ 0` it never terminates, which `none` records.  The fold below
enumerates exactly the iterations of the terminating loop (over exact
rationals; the source accumulates `i += step` in floating point). -/
def stepNearestLoop (nmin nmax nstep nvalue : Option ℚ) : Option (Option ℚ × Option ℚ) :=
  match nmin, nstep, nvalue with
  | some mn, some st, some v =>
    if mn ≤ v + st then
      if st ≤ 0 then none
      else
        let N := (ratFloor ((v + st - mn) / st)).toNat
        some ((List.range (N + 1)).foldl
          (fun acc k =>
            let i := mn + (k : ℚ) * st
            let low := if i < v then some i else acc.1
            let high := if v < i ∧ jsStrictEqNum acc.2 nmax then some i else acc.2
            (low, high))
          (some mn, nmax))
    else some (some mn, nmax)
  | _, _, _ => some (nmin, nmax)

/-- The nearest-valid-values pair as computed inside `#updateValidity`'s
step-mismatch message block (which re-reads `min`/`max`/`step` from the
descriptor and the canonical value). -/
def stepMismatchNearest (fc : FormControl) (value : FCValue) : Option (Option ℚ × Option ℚ) :=
  stepNearestLoop (jsNumberOfStrNum fc.min) (jsNumberOfStrNum fc.max)
    (jsNumberOfStrNum fc.step) (jsNumberOfValue value)

/-- The computed validity bits (`ValidityStateFlags`).  Keys `setValidity`
is not handed default to false. -/
structure ValidityFlags where
  valueMissing : Bool := false
  rangeOverflow : Bool := false
  rangeUnderflow : Bool := false
  stepMismatch : Bool := false
  badInput : Bool := false
  patternMismatch : Bool := false
  tooLong : Bool := false
  tooShort : Bool := false
  customError : Bool := false
  typeMismatch : Bool := false
deriving DecidableEq, Repr

/-- The state of the bound native control (`#input`), as far as the
embedded code reads or writes it.  `value` is the DOM string (assigning
`null` stores `""` per its `[LegacyNullToEmptyString]` IDL type; objects
stringify). -/
structure InputState where
  tag : String := "input"
  typ : String := "text"
  value : String := ""
  checked : Bool := false
  disabled : Bool := false
  required : Bool := false
  readonlyAttr : Bool := false
  placeholderAttr : Option String := none
  minAttr : Option String := none
  maxAttr : Option String := none
  stepAttr : Option String := none
  files : Option Nat := none
  accept : String := ""
  multiple : Bool := false
  pattern : String := ""
  minLength : Int := 0
  maxLength : Int := 0
  validity : ValidityFlags := {}
  validationMessage : String := ""
deriving DecidableEq, Repr

/-- DOM string stored by `input.value = v` for a `FormControlValue`. -/
def jsDomValue : FCValue → String
  | none => ""
  | some (.str s) => s
  | some (.file _) => "[object File]"
  | some (.formData _) => "[object FormData]"

/-- The controller state `#updateValidity` reads. -/
structure ValidityInput where
  fc : FormControl
  value : FCValue
  ariaRequired : Option String
  pattern : Option String
  minLength : Option Int
  maxLength : Option Int
  input : Option InputState

/-- The flag computations of `#updateValidity` (source lines 1306-1339 and
1364-1372), as a pure function of the inputs and of the compiled pattern
(`pat`, `none` when no regex was constructed).  Keys `setValidity` is not
handed (`customError`, `typeMismatch`) stay false: with an anchor input,
spreading `input.validity` contributes no keys, since `ValidityState`
attributes are prototype accessors and object spread copies nothing. -/
def computeFlags (P : Platform) (vi : ValidityInput) (pat : Option (String → Bool)) :
    ValidityFlags :=
  let empty := vi.value == none || vi.value == some (.str "")
  let valueMissing := vi.ariaRequired == some "true" && empty
  let isRN := isRangeOrNumberFormControl vi.fc
  let rangeUnderflow := isRN && !(vi.value == none) &&
    (match vi.fc.min with
     | none => false
     | some m => jsLt (convertForComparison P vi.fc.control (.v vi.value))
         (convertForComparison P vi.fc.control (convArgOfStrNum m)))
  let rangeOverflow := isRN && !(vi.value == none) &&
    (match vi.fc.max with
     | none => false
     | some m => jsGt (convertForComparison P vi.fc.control (.v vi.value))
         (convertForComparison P vi.fc.control (convArgOfStrNum m)))
  let numbers : Option ℚ × Option ℚ × Option ℚ × Option ℚ :=
    if vi.fc.control == "number" then
      (jsNumberOfStrNum vi.fc.min, jsNumberOfStrNum vi.fc.max,
       jsNumberOfStrNum vi.fc.step, jsNumberOfValue vi.value)
    else (none, none, none, none)
  let stepMismatch := vi.fc.control == "number" && !(vi.value == none) &&
    vi.fc.step.isSome && numbers.1.isSome && numbers.2.2.1.isSome &&
    numbers.2.2.2.isSome && !(jsRem numbers.2.2.2 numbers.2.2.1 == some 0)
  let badInput := vi.fc.control == "number" && numbers.2.2.2 == none
  let patternMismatch := pat.isSome &&
    !((pat.getD (fun _ => false)) (jsStrOfValue vi.value))
  let vlen : Int := ((jsStrOfValue vi.value).data.length : Int)
  let tooLong := isTextFormControl (some vi.fc) && vi.maxLength.isSome &&
    decide (vi.maxLength.getD 0 < vlen)
  let tooShort := isTextFormControl (some vi.fc) && vi.minLength.isSome &&
    decide (vlen < vi.minLength.getD 0)
  { valueMissing := valueMissing, rangeOverflow := rangeOverflow,
    rangeUnderflow := rangeUnderflow, stepMismatch := stepMismatch,
    badInput := badInput, patternMismatch := patternMismatch,
    tooLong := tooLong, tooShort := tooShort }

/-- The `RegExp` construction step of `#updateValidity` (source line
1364): `none` = the constructor throws; `some none` = no regex was
constructed (non-text control or null stored pattern). -/
def compilePatternStep (P : Platform) (vi : ValidityInput) : Option (Option (String → Bool)) :=
  if isTextFormControl (some vi.fc) && vi.pattern.isSome
  then (P.compileRegex (vi.pattern.getD "")).map some else some none

/-- The step-mismatch message block of `#updateValidity` (source lines
1348-1362): given the message accumulated so far (`m3`), either leaves it,
or runs the nearest-values search and overwrites it; `none` = the search
loop diverges. -/
def stepMessageBlock (_P : Platform) (vi : ValidityInput) (flags : ValidityFlags)
    (m3 : String) : Option String :=
  if isRangeOrNumberFormControl vi.fc && flags.stepMismatch then
    let mn := jsNumberOfStrNum vi.fc.min
    let mx := jsNumberOfStrNum vi.fc.max
    let stp := jsNumberOfStrNum vi.fc.step
    let vl := jsNumberOfValue vi.value
    if mn.isSome || mx.isSome || stp.isSome || vl.isSome then
      (stepMismatchNearest vi.fc vi.value).map (fun lh =>
        parseVariables STEP_MISMATCH_MESSAGE [jsNumStrOpt lh.1, jsNumStrOpt lh.2])
    else some m3
  else some m3

/-- `#updateValidity` (source lines 1306-1394): the `RegExp` construction
(`none` aborts the computation, as the constructor throws), the flag
block, and the sequential message-overwrite chain in source order; the
result is the `(flags, message)` pair handed to `internals.setValidity`,
`none` standing for abnormal termination (a throwing `RegExp` constructor,
or the divergent step-message loop).  Without an anchor input the message
is used as-is; with one, a non-empty computed message is preferred over
the `validationMessage` of the input. -/
def updateValidityCore (P : Platform) (vi : ValidityInput) : Option (ValidityFlags × String) := do
  let pat ← compilePatternStep P vi
  let flags := computeFlags P vi pat
  let isRN := isRangeOrNumberFormControl vi.fc
  let m1 := if flags.valueMissing then MISSING_MESSAGE else ""
  let m2 := if isRN && flags.rangeUnderflow then
      parseVariables RANGE_UNDERFLOW_MESSAGE [strOfOptStrNum vi.fc.min] else m1
  let m3 := if isRN && flags.rangeOverflow then
      parseVariables RANGE_OVERFLOW_MESSAGE [strOfOptStrNum vi.fc.max] else m2
  let m4 ← stepMessageBlock P vi flags m3
  let m5 := if flags.badInput then TYPE_MISMATCH_MESSAGE else m4
  let m6 := if flags.patternMismatch then PATTERN_MISMATCH_MESSAGE else m5
  let m7 := if flags.tooLong then
      parseVariables TOO_LONG_MESSAGE [intToString (vi.maxLength.getD 0)] else m6
  let m8 := if flags.tooShort then
      parseVariables TOO_SHORT_MESSAGE [intToString (vi.minLength.getD 0)] else m7
  match vi.input with
  | none => some (flags, m8)
  | some inp => some (flags, if m8 != "" then m8 else inp.validationMessage)

example : jsNumber "3" = some 3 := by simp +decide [jsNumber, trimChars, natOfDigits]
example : jsNumber "" = some 0 := by simp +decide [jsNumber, trimChars]
example : jsNumber "2021.02" = some (202102 / 100 : ℚ) := by
  simp +decide [jsNumber, trimChars, natOfDigits]
  norm_num
example : jsRem (some 3) (some 2) = some 1 := by norm_num [jsRem, ratTrunc]
example : jsRem (some (3 - 1)) (some 2) = some 0 := by norm_num [jsRem, ratTrunc]
example : jsReplaceFirst "2021-W02" '-' 'W' "." = "2021.02" := by decide
example : parseVariables "a \x7b\x7d b" ["X"] = "a X b" := by decide
example : jsNumToString (15 / 2 : ℚ) = "7.5" := by norm_num [jsNumToString, decimalString]; decide

end S2P

namespace S2P

/-! ## Controller state (`FormControlElement`) -/

/-- JS `String(bool)`. -/
def jsBoolStr (b : Bool) : String := if b then "true" else "false"

/-- JS `String(x)` for a present `string | number` field. -/
def strnumToString : StrNum → String
  | .s s => s
  | .n q => jsNumToString q

/-- The state of one `FormControlElement` instance: the private class
fields, the `ElementInternals` cells the code writes (`role`, the ARIA
strings, the submitted form value, the validity snapshot), the host's
`name` content attribute, the bound native input, and the associated form
(identified by number; `none` = formless).  The model identifies the
form that owns the element with the form containing it in the DOM,
which is exact in the absence of `form=""` re-association. -/
structure Elem where
  fc : FormControl := DEFAULT_FORM_CONTROL
  name : Option String := none
  nameAttr : Option String := none
  initialValue : FCValue := none
  valueSource : String := "property"
  value : FCValue := none
  checkedSource : String := "property"
  role : Option String := none
  ariaChecked : Option String := none
  ariaDisabled : Option String := none
  ariaRequired : Option String := none
  ariaReadOnly : Option String := none
  ariaPressed : Option String := none
  ariaExpanded : Option String := none
  ariaHasPopup : Option String := none
  ariaAutoComplete : Option String := none
  ariaMultiSelectable : Option String := none
  ariaMultiLine : Option String := none
  ariaPlaceholder : Option String := none
  ariaValueMin : Option String := none
  ariaValueMax : Option String := none
  ariaValueNow : Option String := none
  files : Option Nat := none
  accept : Option String := none
  pattern : Option String := none
  minLength : Option Int := none
  maxLength : Option Int := none
  input : Option InputState := none
  form : Option Nat := none
  formValue : FCValue := none
  validity : ValidityFlags := {}
  validationMessage : String := ""
deriving DecidableEq, Repr

/-- `get checked` (source line 933). -/
def Elem.checked (e : Elem) : Bool := e.ariaChecked == some "true"

/-- `get disabled` (source line 950). -/
def Elem.disabled (e : Elem) : Bool := e.ariaDisabled == some "true"

/-- `get required` (source line 942). -/
def Elem.required (e : Elem) : Bool := e.ariaRequired == some "true"

/-- `#updateValidity` acting on the element state: stores the computed
flags and message into the internals. -/
def updateValidityE (P : Platform) (e : Elem) : Option Elem :=
  (updateValidityCore P
    { fc := e.fc, value := e.value, ariaRequired := e.ariaRequired,
      pattern := e.pattern, minLength := e.minLength, maxLength := e.maxLength,
      input := e.input }).map
    fun fm => { e with validity := fm.1, validationMessage := fm.2 }

/-- `set name` (source line 853): records the property and reflects it
into the `name` content attribute (removal when the attribute exists and
the new value is undefined; the attribute-changed callback this triggers
re-stores the same `#name` value). -/
def Elem.setName (e : Elem) (nv : Option String) : Elem :=
  let e := { e with name := nv }
  match e.nameAttr, nv with
  | some _, none => { e with nameAttr := none }
  | _, some v => { e with nameAttr := some v }
  | none, none => e

/-- `set disabled` (source line 946). -/
def Elem.setDisabled (e : Elem) (b : Bool) : Elem :=
  let e := { e with ariaDisabled := some (jsBoolStr b) }
  match e.input with
  | some inp => { e with input := some { inp with disabled := b } }
  | none => e

/-- `set required` (source line 937). -/
def Elem.setRequired (P : Platform) (e : Elem) (b : Bool) : Option Elem :=
  let e := { e with ariaRequired := some (jsBoolStr b) }
  let e := match e.input with
    | some inp => { e with input := some { inp with required := b } }
    | none => e
  updateValidityE P e

/-- `set readOnly` (source line 954). -/
def Elem.setReadOnly (e : Elem) (b : Bool) : Elem :=
  let e := match e.input with
    | some inp => { e with input := some { inp with readonlyAttr := b } }
    | none => e
  { e with ariaReadOnly := some (jsBoolStr b) }

/-- `set placeholder` (source line 965). -/
def Elem.setPlaceholder (e : Elem) (nv : Option String) : Elem :=
  let e := match e.input with
    | some inp => { e with input := some { inp with placeholderAttr := nv } }
    | none => e
  { e with ariaPlaceholder := nv }

/-- `set min` (source line 976). -/
def Elem.setMin (P : Platform) (e : Elem) (nv : Option StrNum) : Option Elem :=
  let e := match e.input with
    | some inp => { e with input := some { inp with minAttr := nv.map strnumToString } }
    | none => e
  let e := { e with ariaValueMin := nv.map strnumToString }
  updateValidityE P e

/-- `set max` (source line 988). -/
def Elem.setMax (P : Platform) (e : Elem) (nv : Option StrNum) : Option Elem :=
  let e := match e.input with
    | some inp => { e with input := some { inp with maxAttr := nv.map strnumToString } }
    | none => e
  let e := { e with ariaValueMax := nv.map strnumToString }
  updateValidityE P e

/-- `set step` (source line 1000). -/
def Elem.setStep (P : Platform) (e : Elem) (nv : Option StrNum) : Option Elem :=
  let e := match e.input with
    | some inp => { e with input := some { inp with stepAttr := nv.map strnumToString } }
    | none => e
  let e := { e with ariaValueNow := nv.map strnumToString }
  updateValidityE P e

/-- `set files` (source line 1013). -/
def Elem.setFiles (e : Elem) (nv : Option Nat) : Elem :=
  let e := { e with files := nv }
  match e.input with
  | some inp => if inp.tag == "input" then { e with input := some { inp with files := nv } } else e
  | none => e

/-- `set accept` (source line 1027): only writes through when non-null. -/
def Elem.setAccept (e : Elem) (nv : Option String) : Elem :=
  let e := match e.input, nv with
    | some inp, some v =>
      if inp.tag == "input" then { e with input := some { inp with accept := v } } else e
    | _, _ => e
  { e with accept := nv }

/-- `set multiple` (source line 1037). -/
def Elem.setMultiple (e : Elem) (b : Bool) : Elem :=
  let allows := e.fc.control == "file" || e.fc.control == "select"
  let e := match e.input with
    | some inp => if allows then { e with input := some { inp with multiple := b } } else e
    | none => e
  { e with ariaMultiSelectable := some (jsBoolStr b) }

/-- `set pattern` (source line 1049): only writes through when non-null. -/
def Elem.setPattern (P : Platform) (e : Elem) (nv : Option String) : Option Elem :=
  let e := match e.input, nv with
    | some inp, some v =>
      if inp.tag == "input" then { e with input := some { inp with pattern := v } } else e
    | _, _ => e
  updateValidityE P { e with pattern := nv }

/-- `set minLength` (source line 1061). -/
def Elem.setMinLength (P : Platform) (e : Elem) (nv : Option Int) : Option Elem :=
  let e := match e.input, nv with
    | some inp, some v =>
      if inp.tag == "input" then { e with input := some { inp with minLength := v } } else e
    | _, _ => e
  updateValidityE P { e with minLength := nv }

/-- `set maxLength` (source line 1073). -/
def Elem.setMaxLength (P : Platform) (e : Elem) (nv : Option Int) : Option Elem :=
  let e := match e.input, nv with
    | some inp, some v =>
      if inp.tag == "input" then { e with input := some { inp with maxLength := v } } else e
    | _, _ => e
  updateValidityE P { e with maxLength := nv }

/-- `set value` (source lines 870-891): strict-equality fast path, then the
momentary un-disable around `setFormValue` (with a console warning, no
state effect, when the control was disabled), the canonical store, the
mirror into the bound input unless the change came from it, the validity
recomputation, and the provenance reset. -/
def Elem.setValue (P : Platform) (e : Elem) (nv : FCValue) : Option Elem :=
  if e.value == nv then some e
  else
    let prevDisabled := e.disabled
    let e := e.setDisabled false
    let e := { e with formValue := nv }
    let e := e.setDisabled prevDisabled
    let e := { e with value := nv }
    let e := if e.input.isSome && !(e.valueSource == "input") then
        match e.input with
        | some inp => { e with input := some { inp with value := jsDomValue nv } }
        | none => e
      else e
    (updateValidityE P e).map fun e => { e with valueSource := "property" }

end S2P

namespace S2P

/-! ## The document world and the radio-group sweep -/

/-- A plain native `<input>` elsewhere in the document (the radio sweep
also unchecks matching native radios). -/
structure NativeRadio where
  nameAttr : Option String := none
  typ : String := "radio"
  roleAttr : Option String := none
  checked : Bool := false
  form : Option Nat := none
deriving DecidableEq, Repr

/-- A node the radio sweep can see: one of our custom elements, or a
native input. -/
inductive Node where
  | ours (e : Elem)
  | nativeInput (r : NativeRadio)
deriving DecidableEq, Repr

/-- The world: all candidate elements, in document order. -/
abbrev World := List Node

/-- The `name` content attribute of a node. -/
def Node.nameAttr : Node → Option String
  | .ours e => e.nameAttr
  | .nativeInput r => r.nameAttr

/-- The owning form of a node (`radio.form`). -/
def Node.form : Node → Option Nat
  | .ours e => e.form
  | .nativeInput r => r.form

/-- `radio.role === 'radio' || (radio instanceof HTMLInputElement &&
radio.type === 'radio')` (source line 916). -/
def Node.roleRadio : Node → Bool
  | .ours e => e.role == some "radio"
  | .nativeInput r => r.roleAttr == some "radio" || r.typ == "radio"

/-- `radio.checked` read on a node. -/
def Node.checkedRead : Node → Bool
  | .ours e => e.checked
  | .nativeInput r => r.checked

/-- The string interpolated into `[name="${this.#formControl.name}"]`
(an undefined descriptor name interpolates as `"undefined"`). -/
def selName (fc : FormControl) : String := fc.name.getD "undefined"

/-- The controller state after the checked-mirror write of the `checked`
setter (source lines 921-929): the new bit is pushed into a bound input
whose type matches the descriptor, unless the change came from the input;
then the value provenance becomes `checked`. -/
def checkedMirror (e : Elem) (b : Bool) : Elem :=
  { (match e.input with
     | some inp =>
       if inp.tag == "input" && inp.typ == e.fc.control && !(e.checkedSource == "input")
       then { e with input := some { inp with checked := b } } else e
     | none => e) with valueSource := "checked" }

/-- The tail of the `checked` setter after the radio sweep (source lines
921-931): the mirror write, then the canonical-value derivation
`newChecked ? (initialValue ?? 'on') : null` through the value setter, and
the provenance reset. -/
def Elem.checkedTail (P : Platform) (e : Elem) (b : Bool) : Option Elem :=
  (Elem.setValue P (checkedMirror e b)
      (if b then some ((checkedMirror e b).initialValue.getD (.str "on")) else none)).map
    fun e1 => { e1 with checkedSource := "property" }

/-- The full `checked` setter for the cases in which the radio sweep is
skipped (`newChecked` false, or a non-radio descriptor): guard, ARIA
store, and the tail. -/
def Elem.setCheckedLocal (P : Platform) (e : Elem) (b : Bool) : Option Elem :=
  if e.ariaChecked.isSome && (e.checked == b) then some e
  else Elem.checkedTail P { e with ariaChecked := some (jsBoolStr b) } b

/-- One candidate of the radio sweep (source lines 913-919), already known
to be distinct from the assigning element: skipped unless matched by the
scoped `[name="…"]` query and owned by the same form; a checked member
with effective role radio is set unchecked (recursively through our own
setter for our elements — with `newChecked = false` the recursion cannot
sweep again). -/
def sweepOne (P : Platform) (sel : String) (frm : Option Nat) (n : Node) : Option Node :=
  if !(Node.nameAttr n == some sel) then some n
  else if !(match frm with | none => true | some f => Node.form n == some f) then some n
  else if !(Node.form n == frm) then some n
  else if Node.roleRadio n then
    if Node.checkedRead n then
      match n with
      | .ours e => (Elem.setCheckedLocal P e false).map .ours
      | .nativeInput r => some (.nativeInput { r with checked := false })
    else some n
  else some n

/-- The radio sweep over the whole (static) query result, skipping the
assigning element itself. -/
def sweepList (P : Platform) (sel : String) (frm : Option Nat) (selfIdx : Nat) :
    Nat → World → Option World
  | _, [] => some []
  | j, n :: rest =>
    let hd := if j = selfIdx then some n else sweepOne P sel frm n
    match hd, sweepList P sel frm selfIdx (j + 1) rest with
    | some a, some b => some (a :: b)
    | _, _ => none

/-- `set checked` (source lines 904-932) on element `i` of the world:
guard, ARIA store, the radio-group exclusivity sweep when checking a radio
descriptor, then the mirror/value tail on the element itself. -/
def worldSetChecked (P : Platform) (w : World) (i : Nat) (b : Bool) : Option World :=
  match w.get? i with
  | some (.ours e) =>
    if e.ariaChecked.isSome && (e.checked == b) then some w
    else
      let e1 := { e with ariaChecked := some (jsBoolStr b) }
      let w1 := w.set i (.ours e1)
      let w2? := if b && e1.fc.control == "radio"
        then sweepList P (selName e1.fc) e1.form i 0 w1 else some w1
      match w2? with
      | none => none
      | some w2 =>
        match w2.get? i with
        | some (.ours e2) =>
          (Elem.checkedTail P e2 b).map fun e3 => w2.set i (.ours e3)
        | _ => none
  | _ => none

/-! ## `#resetInternals` / `#initInternals` / lifecycle callbacks -/

/-- `#resetInternals` (source lines 1206-1232): neutral values through the
public setters, then the raw internals cells; the event-listener removals
carry no modelled state. -/
def resetInternalsE (P : Platform) (e : Elem) : Option Elem := do
  let e := Elem.setDisabled e false
  let e ← Elem.setRequired P e false
  let e := Elem.setReadOnly e false
  let e := Elem.setPlaceholder e none
  let e ← Elem.setMin P e none
  let e ← Elem.setMax P e none
  let e ← Elem.setStep P e none
  let e := Elem.setFiles e none
  let e := Elem.setAccept e none
  let e := Elem.setMultiple e false
  pure { e with
    role := none, ariaPressed := none, ariaExpanded := none,
    ariaHasPopup := none, ariaAutoComplete := none, ariaMultiSelectable := none,
    ariaChecked := none, ariaMultiLine := none,
    ariaValueMin := none, ariaValueMax := none, ariaValueNow := none }

/-- The first steps of the `#initInternals` prelude (source lines
1120-1122): snapshot the initial value, reflect `name` and `disabled`. -/
def initStage1 (e : Elem) : Elem :=
  let e := { e with initialValue := e.fc.value }
  let e := Elem.setName e e.fc.name
  Elem.setDisabled e (e.fc.disabled.getD false)

/-- The prelude steps after the `required` reflection (source lines
1124-1127): `readOnly`, and the text-only `placeholder` reflection. -/
def initStage2 (e : Elem) : Elem :=
  let e := Elem.setReadOnly e (e.fc.readonly.getD false)
  if isTextFormControl (some e.fc) then Elem.setPlaceholder e e.fc.placeholder else e

/-- The range/number-gated `min`/`max`/`step` reflections (source lines
1128-1132). -/
def initStage3 (P : Platform) (e : Elem) : Option Elem :=
  if isRangeOrNumberFormControl e.fc then do
    let e ← Elem.setMin P e e.fc.min
    let e ← Elem.setMax P e e.fc.max
    Elem.setStep P e e.fc.step
  else pure e

/-- The file/select-gated `files`/`accept`/`multiple` reflections (source
lines 1133-1139). -/
def initStage4 (e : Elem) : Elem :=
  let e := if e.fc.control == "file"
    then Elem.setAccept (Elem.setFiles e e.fc.files) e.fc.accept else e
  if e.fc.control == "select" || e.fc.control == "file"
    then Elem.setMultiple e (e.fc.multiple.getD false) else e

/-- The prelude of `#initInternals` (source lines 1119-1140): snapshot the
initial value, reflect the shared descriptor fields, the kind-gated
placeholder / range / file / select reflections, and the validity
recomputation. -/
def initPrelude (P : Platform) (e : Elem) : Option Elem := do
  let e := initStage1 e
  let e ← Elem.setRequired P e (e.fc.required.getD false)
  let e := initStage2 e
  let e ← initStage3 P e
  updateValidityE P (initStage4 e)

/-- The `switch` of `#initInternals` (source lines 1141-1203), applied to
element `i` of the world holding the prelude result `e`: derives the role
and kind-specific ARIA state, and for checkbox/radio assigns `checked`
from `(checked ?? false) || (defaultChecked ?? false)` (which runs the
radio sweep).  An unmatched discriminant falls through with no changes. -/
def initSwitch (P : Platform) (w : World) (i : Nat) (e : Elem) : Option World :=
  if e.fc.control == "file" then
    some (w.set i (.ours { e with
      role := some "button", ariaHasPopup := some "dialog",
      ariaMultiSelectable := some (jsBoolStr (e.fc.multiple.getD false)) }))
  else if e.fc.control == "image" || e.fc.control == "button" then
    some (w.set i (.ours { e with role := some "button" }))
  else if e.fc.control == "select" then
    some (w.set i (.ours { e with
      role := some "combobox", ariaExpanded := some "false",
      ariaHasPopup := some "listbox", ariaAutoComplete := some "list",
      ariaMultiSelectable := some (jsBoolStr (e.fc.multiple.getD false)) }))
  else if e.fc.control == "checkbox" then
    worldSetChecked P
      (w.set i (.ours { e with role := some "checkbox", checkedSource := "init-checkbox" })) i
      ((e.fc.checked.getD false) || (e.fc.defaultChecked.getD false))
  else if e.fc.control == "radio" then
    worldSetChecked P
      (w.set i (.ours { e with role := some "radio", checkedSource := "init-radio" })) i
      ((e.fc.checked.getD false) || (e.fc.defaultChecked.getD false))
  else if e.fc.control == "textarea" then
    some (w.set i (.ours { e with role := some "textbox", ariaMultiLine := some "true" }))
  else if ["password", "email", "tel", "url", "search", "text"].contains e.fc.control then
    some (w.set i (.ours { e with role := some "textbox", ariaPlaceholder := e.fc.placeholder }))
  else if ["number", "range", "time", "date", "datetime-local", "month", "week"].contains e.fc.control then
    some (w.set i (.ours { e with
      role := some (if e.fc.control == "range" then "slider" else "spinbutton"),
      ariaValueMin := some (strOfOptStrNum e.fc.min),
      ariaValueMax := some (strOfOptStrNum e.fc.max),
      ariaValueNow := some (strOfOptStrNum e.fc.step) }))
  else if e.fc.control == "hidden" then
    some (w.set i (.ours { e with role := some "none" }))
  else
    some (w.set i (.ours e))

/-- `#initInternals` (source lines 1117-1204) on element `i` of the world
(world-level because the checkbox/radio arm assigns `checked`, which can
sweep the radio group): reset, prelude, switch. -/
def worldInitInternals (P : Platform) (w : World) (i : Nat) : Option World :=
  match w.get? i with
  | some (.ours e0) => do
    let e ← resetInternalsE P e0
    let e ← initPrelude P e
    initSwitch P w i e
  | _ => none

/-- `set formControl` (source line 847): store the descriptor, then
`#initInternals`. -/
def worldSetFormControl (P : Platform) (w : World) (i : Nat) (d : FormControl) : Option World :=
  match w.get? i with
  | some (.ours e) => worldInitInternals P (w.set i (.ours { e with fc := d })) i
  | _ => none

/-- `formResetCallback` (source lines 1417-1426): the `'defaultChecked' in
descriptor` test picks the checked restore (under provenance `reset`),
otherwise the value restore to `#initialValue`; then a full
`#initInternals`. -/
def worldFormResetCallback (P : Platform) (w : World) (i : Nat) : Option World :=
  match w.get? i with
  | some (.ours e) => do
    let w1 ←
      if e.fc.defaultChecked.isSome then
        worldSetChecked P (w.set i (.ours { e with checkedSource := "reset" })) i
          (e.fc.defaultChecked.getD false)
      else
        (Elem.setValue P { e with valueSource := "reset" } e.initialValue).map
          fun e1 => w.set i (.ours e1)
    worldInitInternals P w1 i
  | _ => none

/-- `#syncValue` (source lines 1272-1280), the `input`/`change` listener:
value sync under provenance `input`, then checked sync for
checkbox/radio-typed native inputs.  The source dereferences `this.#input!`,
which throws when no input is bound (`none`). -/
def worldSyncValue (P : Platform) (w : World) (i : Nat) : Option World :=
  match w.get? i with
  | some (.ours e) =>
    match e.input with
    | none => none
    | some inp => do
      let e1 ← Elem.setValue P { e with valueSource := "input" } (some (.str inp.value))
      if inp.tag == "input" && (inp.typ == "checkbox" || inp.typ == "radio") then
        worldSetChecked P (w.set i (.ours { e1 with checkedSource := "input" })) i inp.checked
      else
        some (w.set i (.ours e1))
  | _ => none

/-! ## `#updateInput` selector resolution -/

/-- The `tagnameMap` literal (source lines 1239-1261); absent keys are
`undefined`. -/
def tagnameMap : String → Option String
  | "text" => some "input"
  | "checkbox" => some "input"
  | "radio" => some "input"
  | "hidden" => some "input"
  | "password" => some "input"
  | "email" => some "input"
  | "number" => some "input"
  | "tel" => some "input"
  | "url" => some "input"
  | "image" => some "input"
  | "file" => some "input"
  | "month" => some "input"
  | "week" => some "input"
  | "date" => some "input"
  | "datetime-local" => some "input"
  | "color" => some "input"
  | "range" => some "input"
  | "time" => some "input"
  | "search" => some "input"
  | "textarea" => some "textarea"
  | "select" => some "select"
  | _ => none

/-- The selector computation of `#updateInput` (source lines 1236-1264).
`control = "button"` returns early (`none` selector); for a key absent
from `tagnameMap` the lookup yields `undefined` and the subsequent
`_selector.endsWith(…)` call throws a `TypeError`, which the `error`
result records. -/
def updateInputSelector (control : String) : Except String (Option String) :=
  if control == "button" then .ok none
  else
    match tagnameMap control with
    | none => .error "TypeError: Cannot read properties of undefined (reading 'endsWith')"
    | some tagname =>
      let selA := if tagname == "input" then "input[type=\"" ++ control ++ "\"]" else tagname
      let selector :=
        if ("[type=\"text\"]".data).isSuffixOf selA.data
        then selA ++ ", input:not([type])" else selA
      .ok (some selector)

end S2P

namespace S2P

/-! ## Helper lemmas about the validity recomputation -/

/-- A successful `#updateValidity` changes only the stored validity
snapshot and message. -/
theorem updateValidityE_shape (P : Platform) (e e' : Elem)
    (h : updateValidityE P e = some e') :
    e' = { e with validity := e'.validity, validationMessage := e'.validationMessage } := by
  unfold updateValidityE at h
  cases hc : updateValidityCore P
      { fc := e.fc, value := e.value, ariaRequired := e.ariaRequired,
        pattern := e.pattern, minLength := e.minLength, maxLength := e.maxLength,
        input := e.input } with
  | none => rw [hc] at h; simp at h
  | some fm =>
    rw [hc] at h
    rw [Option.map_some'] at h
    cases h
    rfl

/-- The stored-pattern well-formedness used by success lemmas: whenever the
code would construct a regex from the stored pattern, the construction
succeeds. -/
def Elem.patOK (P : Platform) (e : Elem) : Prop :=
  (isTextFormControl (some e.fc) && e.pattern.isSome) = true →
    (P.compileRegex (e.pattern.getD "")).isSome = true

theorem compilePatternStep_isSome (P : Platform) (vi : ValidityInput)
    (hp : (isTextFormControl (some vi.fc) && vi.pattern.isSome) = true →
      (P.compileRegex (vi.pattern.getD "")).isSome = true) :
    (compilePatternStep P vi).isSome = true := by
  unfold compilePatternStep
  by_cases h : (isTextFormControl (some vi.fc) && vi.pattern.isSome) = true
  · rw [if_pos h]
    obtain ⟨f, hf⟩ := Option.isSome_iff_exists.mp (hp h)
    rw [hf]
    rfl
  · rw [if_neg h]
    rfl

theorem stepMessageBlock_isSome (P : Platform) (vi : ValidityInput)
    (flags : ValidityFlags) (m3 : String)
    (h : flags.stepMismatch = true → (stepMismatchNearest vi.fc vi.value).isSome = true) :
    (stepMessageBlock P vi flags m3).isSome = true := by
  unfold stepMessageBlock
  by_cases hc : (isRangeOrNumberFormControl vi.fc && flags.stepMismatch) = true
  · rw [if_pos hc]
    obtain ⟨lh, hlh⟩ := Option.isSome_iff_exists.mp (h ((Bool.and_eq_true _ _).mp hc).2)
    simp only [hlh, Option.map_some']
    split <;> rfl
  · rw [if_neg hc]
    rfl

/-- The step flag forces a `number` control and a non-null value, so the
nearest-values search can only run on numeric data. -/
theorem computeFlags_stepMismatch_control (P : Platform) (vi : ValidityInput)
    (pat : Option (String → Bool))
    (h : (computeFlags P vi pat).stepMismatch = true) :
    (vi.fc.control == "number") = true ∧ ¬(vi.value = none) := by
  unfold computeFlags at h
  simp only at h
  rcases (Bool.and_eq_true _ _).mp h with ⟨h1, -⟩
  rcases (Bool.and_eq_true _ _).mp h1 with ⟨h2, -⟩
  rcases (Bool.and_eq_true _ _).mp h2 with ⟨h3, -⟩
  rcases (Bool.and_eq_true _ _).mp h3 with ⟨h4, -⟩
  rcases (Bool.and_eq_true _ _).mp h4 with ⟨h5, -⟩
  rcases (Bool.and_eq_true _ _).mp h5 with ⟨h6, h7⟩
  refine ⟨h6, ?_⟩
  intro hv
  rw [hv] at h7
  simp at h7

/-- An `Option` bind is `some` when the first component is and the
continuation always is. -/
theorem bindIsSome {α β : Type} (o : Option α) (f : α → Option β)
    (h1 : o.isSome = true) (h2 : ∀ a, (f a).isSome = true) :
    (o >>= f).isSome = true := by
  cases o with
  | none => simp at h1
  | some a => simpa using h2 a

/-- `#updateValidity` completes normally when the stored pattern compiles
and the step-message loop cannot run (a null value, a non-`number`
control) or terminates. -/
theorem updateValidityE_isSome (P : Platform) (e : Elem)
    (hp : Elem.patOK P e)
    (hs : e.value = none ∨ (e.fc.control == "number") = false ∨
      (stepMismatchNearest e.fc e.value).isSome = true) :
    ∃ e1, updateValidityE P e = some e1 := by
  unfold updateValidityE
  set vi : ValidityInput :=
    { fc := e.fc, value := e.value, ariaRequired := e.ariaRequired,
      pattern := e.pattern, minLength := e.minLength, maxLength := e.maxLength,
      input := e.input } with hvi
  suffices hss : (updateValidityCore P vi).isSome = true by
    obtain ⟨fm, hfm⟩ := Option.isSome_iff_exists.mp hss
    exact ⟨_, by rw [hfm]; rfl⟩
  unfold updateValidityCore
  apply bindIsSome _ _ (compilePatternStep_isSome P vi hp)
  intro pat
  apply bindIsSome _ _ (stepMessageBlock_isSome P vi _ _ ?_)
  · intro m4
    cases hin : vi.input <;> simp only [hin] <;> rfl
  · intro hsm
    obtain ⟨hnum, hvne⟩ := computeFlags_stepMismatch_control P vi pat hsm
    rcases hs with h | h | h
    · exact absurd h hvne
    · rw [hnum] at h; simp at h
    · exact h

end S2P

namespace S2P

/-! ## Claim C7 — value set is a no-op on strict equality -/

/-- C7: assigning `value` a value that is `===` to the current canonical
value is a complete no-op: the setter returns before the form-value push,
the mirror write into the bound input, and the validity recomputation, so
the whole controller state — `validationMessage` identity included — is
unchanged. -/
theorem C7_value_noop (P : Platform) (e : Elem) (nv : FCValue)
    (h : nv = e.value) : Elem.setValue P e nv = some e := by
  subst h
  unfold Elem.setValue
  rw [if_pos]
  exact beq_self_eq_true e.value

/-- A concrete controller for witness instantiations: a text control with
a non-null value and a bound text input. -/
def wElem : Elem :=
  { fc := { control := "text", value := some (.str "abc") },
    initialValue := some (.str "abc"),
    value := some (.str "abc"),
    role := some "textbox",
    ariaDisabled := some "false", ariaRequired := some "false",
    input := some { tag := "input", typ := "text", value := "abc" } }

theorem C7_value_noop_witness :
    Elem.setValue defaultPlatform wElem (some (.str "abc")) = some wElem :=
  C7_value_noop defaultPlatform wElem (some (.str "abc")) rfl

/-! ## Characterizations of the value and checked setters -/

/-- The state just before the validity recomputation inside a non-fast-path
`value` assignment: disablement cleared and restored around the form-value
push (so it nets to the previous `disabled` bit, also on the bound input),
the canonical store, and the mirror write unless the change came from the
input. -/
def setValuePost (e : Elem) (nv : FCValue) : Elem :=
  { e with
    ariaDisabled := some (jsBoolStr e.disabled),
    value := nv, formValue := nv,
    input := (match e.input with
      | none => none
      | some inp => some { inp with
          disabled := e.disabled,
          value := if e.valueSource == "input" then inp.value else jsDomValue nv }) }

/-- The `value` setter beyond the fast path is the validity recomputation
on `setValuePost` followed by the provenance reset. -/
theorem setValue_eq (P : Platform) (e : Elem) (nv : FCValue)
    (hne : (e.value == nv) = false) :
    Elem.setValue P e nv =
      (updateValidityE P (setValuePost e nv)).map
        fun e2 => { e2 with valueSource := "property" } := by
  unfold Elem.setValue setValuePost
  rw [if_neg (by rw [hne]; exact Bool.false_ne_true)]
  cases hin : e.input with
  | none =>
    simp only [Elem.setDisabled, hin, Option.isSome_none, Bool.false_and, if_false,
      Bool.false_eq_true]
  | some inp =>
    simp only [Elem.setDisabled, hin, Option.isSome_some, Bool.true_and]
    by_cases hvs : (e.valueSource == "input") = true
    · simp [hvs]
    · rw [Bool.not_eq_true] at hvs
      simp [hvs]

end S2P


namespace S2P

/-! ## Claim C10 — disablement is restored around the form-value push -/

/-- C10: an assignment to `value` made while the control is disabled
leaves the observed `disabled` state — on the controller and on the bound
input — exactly as before the call: the setter clears disablement only
momentarily around `setFormValue` and then restores it, so disablement
never leaks to the caller (the in-sync hypothesis ties the input to the
controller before the call; a warning is logged but no state changes). -/
theorem C10_disabled_restored (P : Platform) (e : Elem) (nv : FCValue) (e' : Elem)
    (hd : e.disabled = true)
    (hsync : ∀ inp, e.input = some inp → inp.disabled = true)
    (hs : Elem.setValue P e nv = some e') :
    e'.disabled = true ∧ ∀ inp', e'.input = some inp' → inp'.disabled = true := by
  by_cases heq : (e.value == nv) = true
  · unfold Elem.setValue at hs
    rw [if_pos heq] at hs
    cases hs
    exact ⟨hd, hsync⟩
  · rw [Bool.not_eq_true] at heq
    rw [setValue_eq P e nv heq] at hs
    rw [Option.map_eq_some'] at hs
    obtain ⟨e2, h2, rfl⟩ := hs
    have hsh := updateValidityE_shape P _ _ h2
    constructor
    · have hda : e2.ariaDisabled = some (jsBoolStr e.disabled) := by rw [hsh]; rfl
      show (e2.ariaDisabled == some "true") = true
      rw [hda, hd]
      rfl
    · intro inp' hip
      have hi2 : e2.input = (setValuePost e nv).input := by rw [hsh]
      rw [show Elem.input { e2 with valueSource := "property" } = e2.input from rfl, hi2] at hip
      rcases hin : e.input with _ | inp
      · simp [setValuePost, hin] at hip
      · simp only [setValuePost, hin] at hip
        rw [Option.some_inj] at hip
        rw [← hip]
        simp [hd]

/-- The disabled controller used by the C10 witness. -/
def wElemDisabled : Elem :=
  { wElem with
    ariaDisabled := some "true",
    input := some { tag := "input", typ := "text", value := "abc", disabled := true } }

theorem C10_disabled_restored_witness :
    Elem.disabled wElemDisabled = true ∧
    ∃ e', Elem.setValue defaultPlatform wElemDisabled (some (.str "xyz")) = some e' ∧
      e'.disabled = true ∧ ∀ inp', e'.input = some inp' → inp'.disabled = true := by
  refine ⟨rfl, ?_⟩
  obtain ⟨e1, he1⟩ := updateValidityE_isSome defaultPlatform
    (setValuePost wElemDisabled (some (.str "xyz")))
    (by intro h; simp [defaultPlatform])
    (by right; left; rfl)
  have hs : Elem.setValue defaultPlatform wElemDisabled (some (.str "xyz")) =
      some { e1 with valueSource := "property" } := by
    rw [setValue_eq _ _ _ (by rfl), he1]
    rfl
  exact ⟨_, hs, C10_disabled_restored defaultPlatform wElemDisabled (some (.str "xyz")) _
    rfl (fun inp h => by cases h; rfl) hs⟩

end S2P

namespace S2P

/-! ## Characterization of the checked setter -/

/-- The mirror write changes nothing but the bound input and the value
provenance. -/
theorem checkedMirror_fields (e : Elem) (b : Bool) :
    (checkedMirror e b).ariaChecked = e.ariaChecked ∧
    (checkedMirror e b).value = e.value ∧
    (checkedMirror e b).initialValue = e.initialValue ∧
    (checkedMirror e b).role = e.role ∧
    (checkedMirror e b).fc = e.fc ∧
    (checkedMirror e b).form = e.form ∧
    (checkedMirror e b).nameAttr = e.nameAttr := by
  unfold checkedMirror
  rcases e.input with _ | inp
  · exact ⟨rfl, rfl, rfl, rfl, rfl, rfl, rfl⟩
  · dsimp only
    split <;> exact ⟨rfl, rfl, rfl, rfl, rfl, rfl, rfl⟩

/-- What a completed checked-setter tail guarantees: the ARIA checked cell
is untouched, the canonical value is re-derived from the new checked bit,
and identity fields survive. -/
theorem checkedTail_char (P : Platform) (e : Elem) (b : Bool) (e' : Elem)
    (hs : Elem.checkedTail P e b = some e') :
    e'.ariaChecked = e.ariaChecked ∧
    e'.value = (if b then some (e.initialValue.getD (.str "on")) else none) ∧
    e'.checkedSource = "property" ∧ e'.role = e.role ∧ e'.fc = e.fc ∧
    e'.initialValue = e.initialValue ∧ e'.form = e.form ∧ e'.nameAttr = e.nameAttr := by
  unfold Elem.checkedTail at hs
  obtain ⟨hac, hva, hiv, hro, hfc, hfo, hna⟩ := checkedMirror_fields e b
  rw [hiv] at hs
  set em : Elem := checkedMirror e b with hem
  set tgt : FCValue := if b then some (e.initialValue.getD (.str "on")) else none with htgt
  rw [Option.map_eq_some'] at hs
  obtain ⟨e2, h2, rfl⟩ := hs
  by_cases heq : (em.value == tgt) = true
  · have he2 : e2 = em := by
      unfold Elem.setValue at h2
      rw [if_pos heq] at h2
      cases h2
      rfl
    subst he2
    exact ⟨hac, eq_of_beq heq, rfl, hro, hfc, hiv, hfo, hna⟩
  · rw [Bool.not_eq_true] at heq
    rw [setValue_eq P em tgt heq] at h2
    rw [Option.map_eq_some'] at h2
    obtain ⟨e3, h3, rfl⟩ := h2
    have hsh := updateValidityE_shape P _ _ h3
    have h1 : e3.ariaChecked = em.ariaChecked := by rw [hsh]; rfl
    have h4 : e3.value = tgt := by rw [hsh]; rfl
    have h5 : e3.role = em.role := by rw [hsh]; rfl
    have h6 : e3.fc = em.fc := by rw [hsh]; rfl
    have h7 : e3.initialValue = em.initialValue := by rw [hsh]; rfl
    have h8 : e3.form = em.form := by rw [hsh]; rfl
    have h9 : e3.nameAttr = em.nameAttr := by rw [hsh]; rfl
    exact ⟨h1.trans hac, h4, rfl, h5.trans hro, h6.trans hfc, h7.trans hiv,
      h8.trans hfo, h9.trans hna⟩

/-- `set checked` on a non-radio-sweeping assignment reduces to the guard
plus the local tail. -/
theorem worldSetChecked_nonradio (P : Platform) (w : World) (i : Nat) (b : Bool) (e : Elem)
    (he : w.get? i = some (.ours e))
    (hnr : (b && (e.fc.control == "radio")) = false) :
    worldSetChecked P w i b =
      if e.ariaChecked.isSome && (e.checked == b) then some w
      else (Elem.checkedTail P { e with ariaChecked := some (jsBoolStr b) } b).map
        (fun e3 => w.set i (.ours e3)) := by
  have hlt : i < w.length := (List.get?_eq_some.mp he).1
  unfold worldSetChecked
  simp only [he]
  by_cases hg : (e.ariaChecked.isSome && (e.checked == b)) = true
  · rw [if_pos hg, if_pos hg]
  · rw [if_neg hg, if_neg hg]
    rw [show ({ e with ariaChecked := some (jsBoolStr b) } : Elem).fc = e.fc from rfl]
    rw [hnr]
    simp only [Bool.false_eq_true, if_false]
    rw [List.get?_set_eq_of_lt _ hlt]
    cases ht : Elem.checkedTail P { e with ariaChecked := some (jsBoolStr b) } b with
    | none =>
      dsimp only
      rw [ht]
      rfl
    | some e3 =>
      dsimp only
      rw [ht]
      simp only [Option.map_some']
      rw [List.set_set]

end S2P

namespace S2P

/-! ## Claim C9 — checked assignment on non-checkbox/radio kinds -/

/-- A freshly initialized text controller (role `textbox`, no ARIA checked
state, null value). -/
def c9Elem : Elem := { fc := { control := "text" }, role := some "textbox" }

/-- The state the code actually produces when `checked = true` is assigned
to `c9Elem`. -/
def c9After : Elem :=
  { fc := { control := "text" }, role := some "textbox",
    ariaChecked := some "true", ariaDisabled := some "false",
    value := some (.str "on"), formValue := some (.str "on") }

/-- C9 counterexample: assigning `checked = true` on a text-control
controller is not inert — it stores `ariaChecked = "true"` and rewrites
the canonical value to `'on'` (with the matching form-value push), so both
the ARIA state and the canonical value change. -/
theorem C9_counterexample :
    worldSetChecked defaultPlatform [Node.ours c9Elem] 0 true = some [Node.ours c9After] ∧
    ¬(c9After.ariaChecked = c9Elem.ariaChecked) ∧ ¬(c9After.value = c9Elem.value) := by
  refine ⟨?_, by decide, by decide⟩
  rfl

/-- C9 amended: on a controller whose descriptor kind is neither checkbox
nor radio, assigning `checked` is a no-op only when `ariaChecked` is
already populated with the assigned boolean; otherwise it stores the new
boolean into `ariaChecked` and re-derives the canonical value as
`initialValue ?? 'on'` (checked) or `null` (unchecked), leaving every
other element of the world untouched. -/
theorem C9_checked_amended (P : Platform) (w : World) (i : Nat) (b : Bool) (e : Elem)
    (w' : World)
    (he : w.get? i = some (.ours e))
    (hk : ¬(e.fc.control = "checkbox") ∧ ¬(e.fc.control = "radio"))
    (hs : worldSetChecked P w i b = some w') :
    (e.ariaChecked.isSome = true ∧ e.checked = b → w' = w) ∧
    (¬(e.ariaChecked.isSome = true ∧ e.checked = b) →
      ∃ e', w' = w.set i (.ours e') ∧ e'.ariaChecked = some (jsBoolStr b) ∧
        e'.value = (if b then some (e.initialValue.getD (.str "on")) else none)) := by
  have hnr : (b && (e.fc.control == "radio")) = false := by
    have : (e.fc.control == "radio") = false := by
      rw [beq_eq_false_iff_ne]
      exact hk.2
    rw [this, Bool.and_false]
  rw [worldSetChecked_nonradio P w i b e he hnr] at hs
  constructor
  · rintro ⟨h1, h2⟩
    rw [if_pos (by rw [h1, h2, Bool.true_and]; exact beq_self_eq_true b)] at hs
    cases hs
    rfl
  · intro hng
    have hgf : (e.ariaChecked.isSome && (e.checked == b)) = false := by
      by_cases hia : e.ariaChecked.isSome = true
      · by_cases hcb : e.checked = b
        · exact absurd ⟨hia, hcb⟩ hng
        · rw [hia, Bool.true_and, beq_eq_false_iff_ne]
          exact hcb
      · rw [Bool.not_eq_true] at hia
        rw [hia, Bool.false_and]
    rw [if_neg (by rw [hgf]; exact Bool.false_ne_true)] at hs
    rw [Option.map_eq_some'] at hs
    obtain ⟨e3, h3, rfl⟩ := hs
    obtain ⟨hac, hval, -, -, -, -, -, -⟩ := checkedTail_char P _ b e3 h3
    exact ⟨e3, rfl, hac, hval⟩

theorem C9_checked_amended_witness :
    ¬(c9Elem.fc.control = "checkbox") ∧ ¬(c9Elem.fc.control = "radio") ∧
    ¬(c9Elem.ariaChecked.isSome = true ∧ c9Elem.checked = true) ∧
    ∃ e', [Node.ours c9After] = [Node.ours c9Elem].set 0 (.ours e') ∧
      e'.ariaChecked = some (jsBoolStr true) ∧
      e'.value = (if true then some (c9Elem.initialValue.getD (.str "on")) else none) := by
  refine ⟨by decide, by decide, by decide, ?_⟩
  exact (C9_checked_amended defaultPlatform [Node.ours c9Elem] 0 true c9Elem
    [Node.ours c9After] rfl ⟨by decide, by decide⟩ rfl).2 (by decide)

end S2P

namespace S2P

/-! ## Claim C5 — the step-mismatch flag -/

/-- On success, the validity flags are exactly `computeFlags` at the
compiled pattern. -/
theorem updateValidityCore_flags (P : Platform) (vi : ValidityInput)
    (flags : ValidityFlags) (m : String)
    (h : updateValidityCore P vi = some (flags, m)) :
    ∃ pat, compilePatternStep P vi = some pat ∧ flags = computeFlags P vi pat := by
  unfold updateValidityCore at h
  cases hp : compilePatternStep P vi with
  | none => rw [hp] at h; simp at h
  | some pat =>
    rw [hp] at h
    simp only [Option.bind_eq_bind, Option.some_bind] at h
    rw [Option.bind_eq_some] at h
    obtain ⟨m4, -, h⟩ := h
    refine ⟨pat, rfl, ?_⟩
    rcases hin : vi.input with _ | inp <;> rw [hin] at h <;>
      · rw [Option.some_inj] at h
        exact (congrArg Prod.fst h).symm

/-- The step-mismatch predicate exactly as the specification words it:
`(value - reference) % step !== 0`, the reference defaulting to `min` when
present.  Written from the claim, for comparison with the code's flag. -/
def claimStepFormula (fc : FormControl) (value : FCValue) : Bool :=
  !(jsRem (some ((jsNumberOfValue value).getD 0 - (jsNumberOfStrNum fc.min).getD 0))
      (jsNumberOfStrNum fc.step) == some 0)

/-- A number descriptor with `min = 1`, `step = 2`. -/
def c5FC : FormControl := { control := "number", min := some (.n 1), step := some (.n 2) }

/-- The validity input for `c5FC` with value `"3"`. -/
def c5VI : ValidityInput :=
  { fc := c5FC, value := some (.str "3"), ariaRequired := some "false",
    pattern := none, minLength := none, maxLength := none, input := none }

/-- C5 counterexample: with `min = 1`, `step = 2`, value `"3"`, the code
sets `stepMismatch = true` (it tests `value % step !== 0`, and `3 % 2 = 1`),
while the claim's formula `(value - min) % step !== 0` is false
(`(3 - 1) % 2 = 0`) — so the claimed equivalence fails. -/
theorem C5_counterexample :
    (∃ m, updateValidityCore defaultPlatform c5VI = some ({ stepMismatch := true }, m)) ∧
    claimStepFormula c5FC (some (.str "3")) = false := by
  constructor
  · simp +decide [updateValidityCore, compilePatternStep, stepMessageBlock, computeFlags,
      c5VI, c5FC, isRangeOrNumberFormControl, RANGE_CONTROLS, isTextFormControl,
      convertForComparison, convArgOfStrNum, jsLt, jsGt, jsNumber, trimChars, natOfDigits,
      jsStrOfValue, defaultPlatform, strOfOptStrNum, jsNumToString, decimalString,
      natToString, natDigitsAux,
      jsNumberOfStrNum, jsNumberOfValue, jsRem, ratTrunc, stepNearestLoop,
      stepMismatchNearest, ratFloor, jsStrictEqNum]
    norm_num
  · have h1 : jsNumberOfValue (some (.str "3")) = some 3 := by
      simp +decide [jsNumberOfValue, jsNumber, trimChars, natOfDigits]
    have h4 : jsRem (some ((3 : ℚ) - 1)) (some 2) = some 0 := by norm_num [jsRem, ratTrunc]
    simp only [claimStepFormula, c5FC, jsNumberOfStrNum, h1, Option.getD_some]
    rw [h4]
    simp

/-- C5 amended: for a `number` descriptor with a present `step` and a
non-null value, `stepMismatch` is true exactly when `min`, `step` and the
value all parse as numbers and `value % step !== 0` — there is no
reference subtraction, and a missing or non-numeric `min` disables the
check entirely. -/
theorem C5_step_amended (P : Platform) (vi : ValidityInput) (flags : ValidityFlags)
    (m : String)
    (h : updateValidityCore P vi = some (flags, m))
    (hc : vi.fc.control = "number") (hstep : vi.fc.step.isSome = true)
    (hv : ¬(vi.value = none)) :
    flags.stepMismatch =
      ((jsNumberOfStrNum vi.fc.min).isSome && (jsNumberOfStrNum vi.fc.step).isSome &&
       (jsNumberOfValue vi.value).isSome &&
       !(jsRem (jsNumberOfValue vi.value) (jsNumberOfStrNum vi.fc.step) == some 0)) := by
  obtain ⟨pat, -, hflags⟩ := updateValidityCore_flags P vi flags m h
  subst hflags
  unfold computeFlags
  simp only [hc, hstep]
  have hvb : (vi.value == none) = false := by
    rw [beq_eq_false_iff_ne]
    exact hv
  simp only [hvb]
  simp +decide

theorem C5_step_amended_witness :
    c5VI.fc.control = "number" ∧ c5VI.fc.step.isSome = true ∧ ¬(c5VI.value = none) ∧
    ({ stepMismatch := true } : ValidityFlags).stepMismatch =
      ((jsNumberOfStrNum c5VI.fc.min).isSome && (jsNumberOfStrNum c5VI.fc.step).isSome &&
       (jsNumberOfValue c5VI.value).isSome &&
       !(jsRem (jsNumberOfValue c5VI.value) (jsNumberOfStrNum c5VI.fc.step) == some 0)) := by
  refine ⟨rfl, rfl, by decide, ?_⟩
  obtain ⟨m, hm⟩ := C5_counterexample.1
  exact C5_step_amended defaultPlatform c5VI { stepMismatch := true } m hm rfl rfl (by decide)

end S2P

namespace S2P

/-! ## Characterization of `#resetInternals` and `#initInternals` -/

/-- The cumulative effect of `#resetInternals` on a bound input. -/
def resetInputView (fc : FormControl) (inp : InputState) : InputState :=
  { inp with
    disabled := false, required := false, readonlyAttr := false,
    placeholderAttr := none, minAttr := none, maxAttr := none, stepAttr := none,
    files := if inp.tag == "input" then none else inp.files,
    multiple := if fc.control == "file" || fc.control == "select" then false else inp.multiple }

/-- The cumulative effect of `#resetInternals` on the controller state,
except for the validity snapshot the interleaved recomputations leave. -/
def resetElem (e : Elem) : Elem :=
  { e with
    ariaDisabled := some "false", ariaRequired := some "false", ariaReadOnly := some "false",
    ariaPlaceholder := none,
    role := none, ariaPressed := none, ariaExpanded := none, ariaHasPopup := none,
    ariaAutoComplete := none, ariaMultiSelectable := none, ariaChecked := none,
    ariaMultiLine := none, ariaValueMin := none, ariaValueMax := none, ariaValueNow := none,
    files := none, accept := none,
    input := e.input.map (resetInputView e.fc) }

/-- A completed `#resetInternals` on a controller without a bound input:
every role/ARIA cell is cleared (modulo the `disabled`/`required`/
`readonly` reflections, which become `"false"`), and the canonical state
survives untouched. -/
theorem resetInternalsE_fields (P : Platform) (e e' : Elem)
    (hin : e.input = none)
    (h : resetInternalsE P e = some e') :
    e'.fc = e.fc ∧ e'.value = e.value ∧ e'.pattern = e.pattern ∧
    e'.valueSource = e.valueSource ∧ e'.checkedSource = e.checkedSource ∧
    e'.initialValue = e.initialValue ∧ e'.form = e.form ∧ e'.name = e.name ∧
    e'.nameAttr = e.nameAttr ∧ e'.input = none ∧
    e'.ariaDisabled = some "false" ∧ e'.ariaRequired = some "false" ∧
    e'.ariaReadOnly = some "false" ∧ e'.ariaPlaceholder = none ∧
    e'.role = none ∧ e'.ariaChecked = none ∧ e'.ariaPressed = none ∧
    e'.ariaExpanded = none ∧ e'.ariaHasPopup = none ∧ e'.ariaAutoComplete = none ∧
    e'.ariaMultiSelectable = none ∧ e'.ariaMultiLine = none ∧
    e'.ariaValueMin = none ∧ e'.ariaValueMax = none ∧ e'.ariaValueNow = none ∧
    e'.files = none ∧ e'.accept = none := by
  unfold resetInternalsE at h
  simp only [Option.bind_eq_bind] at h
  rw [Option.bind_eq_some] at h
  obtain ⟨e1, h1, h⟩ := h
  rw [Option.bind_eq_some] at h
  obtain ⟨e2, h2, h⟩ := h
  rw [Option.bind_eq_some] at h
  obtain ⟨e3, h3, h⟩ := h
  rw [Option.bind_eq_some] at h
  obtain ⟨e4, h4, h⟩ := h
  rw [Option.pure_def, Option.some_inj] at h
  unfold Elem.setRequired at h1
  have s1 := updateValidityE_shape P _ _ h1
  obtain ⟨f1, v1, p1, vs1, cs1, iv1, fo1, n1, na1, in1, ad1, ar1⟩ :
      e1.fc = e.fc ∧ e1.value = e.value ∧ e1.pattern = e.pattern ∧
      e1.valueSource = e.valueSource ∧ e1.checkedSource = e.checkedSource ∧
      e1.initialValue = e.initialValue ∧ e1.form = e.form ∧ e1.name = e.name ∧
      e1.nameAttr = e.nameAttr ∧ e1.input = none ∧
      e1.ariaDisabled = some "false" ∧ e1.ariaRequired = some "false" := by
    rw [s1]
    simp [Elem.setDisabled, hin, jsBoolStr]
  unfold Elem.setMin at h2
  have s2 := updateValidityE_shape P _ _ h2
  obtain ⟨f2, v2, p2, vs2, cs2, iv2, fo2, n2, na2, in2, ad2, ar2, aro2, ap2, avm2⟩ :
      e2.fc = e.fc ∧ e2.value = e.value ∧ e2.pattern = e.pattern ∧
      e2.valueSource = e.valueSource ∧ e2.checkedSource = e.checkedSource ∧
      e2.initialValue = e.initialValue ∧ e2.form = e.form ∧ e2.name = e.name ∧
      e2.nameAttr = e.nameAttr ∧ e2.input = none ∧
      e2.ariaDisabled = some "false" ∧ e2.ariaRequired = some "false" ∧
      e2.ariaReadOnly = some "false" ∧ e2.ariaPlaceholder = none ∧
      e2.ariaValueMin = none := by
    rw [s2]
    simp [Elem.setReadOnly, Elem.setPlaceholder, in1, f1, v1, p1, vs1, cs1, iv1,
      fo1, n1, na1, ad1, ar1, jsBoolStr]
  unfold Elem.setMax at h3
  have s3 := updateValidityE_shape P _ _ h3
  obtain ⟨f3, v3, p3, vs3, cs3, iv3, fo3, n3, na3, in3, ad3, ar3, aro3, ap3, avm3, avx3⟩ :
      e3.fc = e.fc ∧ e3.value = e.value ∧ e3.pattern = e.pattern ∧
      e3.valueSource = e.valueSource ∧ e3.checkedSource = e.checkedSource ∧
      e3.initialValue = e.initialValue ∧ e3.form = e.form ∧ e3.name = e.name ∧
      e3.nameAttr = e.nameAttr ∧ e3.input = none ∧
      e3.ariaDisabled = some "false" ∧ e3.ariaRequired = some "false" ∧
      e3.ariaReadOnly = some "false" ∧ e3.ariaPlaceholder = none ∧
      e3.ariaValueMin = none ∧ e3.ariaValueMax = none := by
    rw [s3]
    simp [in2, f2, v2, p2, vs2, cs2, iv2, fo2, n2, na2, ad2, ar2, aro2, ap2, avm2]
  unfold Elem.setStep at h4
  have s4 := updateValidityE_shape P _ _ h4
  obtain ⟨f4, v4, p4, vs4, cs4, iv4, fo4, n4, na4, in4, ad4, ar4, aro4, ap4, avm4, avx4, avn4⟩ :
      e4.fc = e.fc ∧ e4.value = e.value ∧ e4.pattern = e.pattern ∧
      e4.valueSource = e.valueSource ∧ e4.checkedSource = e.checkedSource ∧
      e4.initialValue = e.initialValue ∧ e4.form = e.form ∧ e4.name = e.name ∧
      e4.nameAttr = e.nameAttr ∧ e4.input = none ∧
      e4.ariaDisabled = some "false" ∧ e4.ariaRequired = some "false" ∧
      e4.ariaReadOnly = some "false" ∧ e4.ariaPlaceholder = none ∧
      e4.ariaValueMin = none ∧ e4.ariaValueMax = none ∧ e4.ariaValueNow = none := by
    rw [s4]
    simp [in3, f3, v3, p3, vs3, cs3, iv3, fo3, n3, na3, ad3, ar3, aro3, ap3, avm3, avx3]
  rw [← h]
  simp [Elem.setFiles, Elem.setAccept, Elem.setMultiple, in4, f4, v4, p4, vs4, cs4,
    iv4, fo4, n4, na4, ad4, ar4, aro4, ap4]

end S2P

namespace S2P

/-! ## Per-setter lemmas for controllers without a bound input -/

theorem setRequired_noInput_char (P : Platform) (e : Elem) (b : Bool) (e1 : Elem)
    (hin : e.input = none)
    (h : Elem.setRequired P e b = some e1) :
    e1 = { e with
      ariaRequired := some (jsBoolStr b),
      validity := e1.validity,
      validationMessage := e1.validationMessage } := by
  unfold Elem.setRequired at h
  simp only [hin] at h
  rw [updateValidityE_shape P _ _ h]
  simp [hin]

theorem setRequired_noInput_isSome (P : Platform) (e : Elem) (b : Bool)
    (hin : e.input = none)
    (hnum : (e.fc.control == "number") = false)
    (htext : isTextFormControl (some e.fc) = false) :
    ∃ e1, Elem.setRequired P e b = some e1 := by
  unfold Elem.setRequired
  simp only [hin]
  apply updateValidityE_isSome
  · intro hx
    rw [show isTextFormControl (some (Elem.fc { e with ariaRequired := some (jsBoolStr b) })) =
      isTextFormControl (some e.fc) from rfl, htext] at hx
    simp at hx
  · right; left
    exact hnum

theorem setMin_noInput_char (P : Platform) (e : Elem) (nv : Option StrNum) (e1 : Elem)
    (hin : e.input = none)
    (h : Elem.setMin P e nv = some e1) :
    e1 = { e with
      ariaValueMin := nv.map strnumToString,
      validity := e1.validity,
      validationMessage := e1.validationMessage } := by
  unfold Elem.setMin at h
  simp only [hin] at h
  rw [updateValidityE_shape P _ _ h]
  simp [hin]

theorem setMin_noInput_isSome (P : Platform) (e : Elem) (nv : Option StrNum)
    (hin : e.input = none)
    (hnum : (e.fc.control == "number") = false)
    (htext : isTextFormControl (some e.fc) = false) :
    ∃ e1, Elem.setMin P e nv = some e1 := by
  unfold Elem.setMin
  simp only [hin]
  apply updateValidityE_isSome
  · intro hx
    rw [show isTextFormControl (some (Elem.fc { e with ariaValueMin := nv.map strnumToString })) =
      isTextFormControl (some e.fc) from rfl, htext] at hx
    simp at hx
  · right; left
    exact hnum

theorem setMax_noInput_char (P : Platform) (e : Elem) (nv : Option StrNum) (e1 : Elem)
    (hin : e.input = none)
    (h : Elem.setMax P e nv = some e1) :
    e1 = { e with
      ariaValueMax := nv.map strnumToString,
      validity := e1.validity,
      validationMessage := e1.validationMessage } := by
  unfold Elem.setMax at h
  simp only [hin] at h
  rw [updateValidityE_shape P _ _ h]
  simp [hin]

theorem setMax_noInput_isSome (P : Platform) (e : Elem) (nv : Option StrNum)
    (hin : e.input = none)
    (hnum : (e.fc.control == "number") = false)
    (htext : isTextFormControl (some e.fc) = false) :
    ∃ e1, Elem.setMax P e nv = some e1 := by
  unfold Elem.setMax
  simp only [hin]
  apply updateValidityE_isSome
  · intro hx
    rw [show isTextFormControl (some (Elem.fc { e with ariaValueMax := nv.map strnumToString })) =
      isTextFormControl (some e.fc) from rfl, htext] at hx
    simp at hx
  · right; left
    exact hnum

theorem setStep_noInput_char (P : Platform) (e : Elem) (nv : Option StrNum) (e1 : Elem)
    (hin : e.input = none)
    (h : Elem.setStep P e nv = some e1) :
    e1 = { e with
      ariaValueNow := nv.map strnumToString,
      validity := e1.validity,
      validationMessage := e1.validationMessage } := by
  unfold Elem.setStep at h
  simp only [hin] at h
  rw [updateValidityE_shape P _ _ h]
  simp [hin]

theorem setStep_noInput_isSome (P : Platform) (e : Elem) (nv : Option StrNum)
    (hin : e.input = none)
    (hnum : (e.fc.control == "number") = false)
    (htext : isTextFormControl (some e.fc) = false) :
    ∃ e1, Elem.setStep P e nv = some e1 := by
  unfold Elem.setStep
  simp only [hin]
  apply updateValidityE_isSome
  · intro hx
    rw [show isTextFormControl (some (Elem.fc { e with ariaValueNow := nv.map strnumToString })) =
      isTextFormControl (some e.fc) from rfl, htext] at hx
    simp at hx
  · right; left
    exact hnum

theorem updateValidityE_isSome_noPattern (P : Platform) (e : Elem)
    (hnum : (e.fc.control == "number") = false)
    (htext : isTextFormControl (some e.fc) = false) :
    ∃ e1, updateValidityE P e = some e1 := by
  apply updateValidityE_isSome
  · intro hx
    rw [htext] at hx
    simp at hx
  · right; left
    exact hnum

/-- `#resetInternals` completes normally on a controller without a bound
input whose control is neither `number` nor text-like. -/
theorem resetInternalsE_isSome (P : Platform) (e : Elem)
    (hin : e.input = none)
    (hnum : (e.fc.control == "number") = false)
    (htext : isTextFormControl (some e.fc) = false) :
    ∃ e', resetInternalsE P e = some e' := by
  unfold resetInternalsE
  simp only [Option.bind_eq_bind]
  have hin0 : (Elem.setDisabled e false).input = none := by
    simp [Elem.setDisabled, hin]
  obtain ⟨e1, h1⟩ := setRequired_noInput_isSome P (Elem.setDisabled e false) false hin0
    (by rw [show (Elem.setDisabled e false).fc = e.fc by simp [Elem.setDisabled, hin]]; exact hnum)
    (by rw [show (Elem.setDisabled e false).fc = e.fc by simp [Elem.setDisabled, hin]]; exact htext)
  have c1 := setRequired_noInput_char P _ false e1 hin0 h1
  have hin1 : e1.input = none := by rw [c1]; simp [Elem.setDisabled, hin]
  have hfc1 : e1.fc = e.fc := by rw [c1]; simp [Elem.setDisabled, hin]
  rw [h1]
  simp only [Option.some_bind]
  have hin2p : (Elem.setPlaceholder (Elem.setReadOnly e1 false) none).input = none := by
    simp [Elem.setReadOnly, Elem.setPlaceholder, hin1]
  have hfc2p : (Elem.setPlaceholder (Elem.setReadOnly e1 false) none).fc = e.fc := by
    simp [Elem.setReadOnly, Elem.setPlaceholder, hin1, hfc1]
  obtain ⟨e2, h2⟩ := setMin_noInput_isSome P (Elem.setPlaceholder (Elem.setReadOnly e1 false) none)
    none hin2p (by rw [hfc2p]; exact hnum) (by rw [hfc2p]; exact htext)
  have c2 := setMin_noInput_char P _ none e2 hin2p h2
  have hin2 : e2.input = none := by rw [c2]; exact hin2p
  have hfc2 : e2.fc = e.fc := by rw [c2]; exact hfc2p
  rw [h2]
  simp only [Option.some_bind]
  obtain ⟨e3, h3⟩ := setMax_noInput_isSome P e2 none hin2 (by rw [hfc2]; exact hnum)
    (by rw [hfc2]; exact htext)
  have c3 := setMax_noInput_char P _ none e3 hin2 h3
  have hin3 : e3.input = none := by rw [c3]; exact hin2
  have hfc3 : e3.fc = e.fc := by rw [c3]; exact hfc2
  rw [h3]
  simp only [Option.some_bind]
  obtain ⟨e4, h4⟩ := setStep_noInput_isSome P e3 none hin3 (by rw [hfc3]; exact hnum)
    (by rw [hfc3]; exact htext)
  rw [h4]
  simp only [Option.some_bind]
  exact ⟨_, rfl⟩

end S2P

namespace S2P

theorem setName_eq (e : Elem) (nv : Option String) :
    Elem.setName e nv = { e with
      name := nv,
      nameAttr := match e.nameAttr, nv with
        | some _, none => none
        | _, some v => some v
        | none, none => e.nameAttr } := by
  unfold Elem.setName
  rcases e.nameAttr with _ | a <;> rcases nv with _ | v <;> rfl

theorem setDisabled_noInput_eq (e : Elem) (b : Bool) (hin : e.input = none) :
    Elem.setDisabled e b = { e with ariaDisabled := some (jsBoolStr b) } := by
  unfold Elem.setDisabled
  simp [hin]

theorem setReadOnly_noInput_eq (e : Elem) (b : Bool) (hin : e.input = none) :
    Elem.setReadOnly e b = { e with ariaReadOnly := some (jsBoolStr b) } := by
  unfold Elem.setReadOnly
  simp [hin]

theorem setPlaceholder_noInput_eq (e : Elem) (nv : Option String) (hin : e.input = none) :
    Elem.setPlaceholder e nv = { e with ariaPlaceholder := nv } := by
  unfold Elem.setPlaceholder
  simp [hin]

theorem setFiles_noInput_eq (e : Elem) (nv : Option Nat) (hin : e.input = none) :
    Elem.setFiles e nv = { e with files := nv } := by
  unfold Elem.setFiles
  simp [hin]

theorem setAccept_noInput_eq (e : Elem) (nv : Option String) (hin : e.input = none) :
    Elem.setAccept e nv = { e with accept := nv } := by
  unfold Elem.setAccept
  rcases nv with _ | v <;> simp [hin]

theorem setMultiple_noInput_eq (e : Elem) (b : Bool) (hin : e.input = none) :
    Elem.setMultiple e b = { e with ariaMultiSelectable := some (jsBoolStr b) } := by
  unfold Elem.setMultiple
  simp [hin]

end S2P

namespace S2P

/-! ## Characterization of the `#initInternals` prelude -/

/-- Pointwise agreement of the role and the kind-specific ARIA cells of
two controller states. -/
def ariaAgree (a b : Elem) : Prop :=
  a.role = b.role ∧ a.ariaChecked = b.ariaChecked ∧ a.ariaPressed = b.ariaPressed ∧
  a.ariaExpanded = b.ariaExpanded ∧ a.ariaHasPopup = b.ariaHasPopup ∧
  a.ariaAutoComplete = b.ariaAutoComplete ∧ a.ariaMultiSelectable = b.ariaMultiSelectable ∧
  a.ariaMultiLine = b.ariaMultiLine ∧ a.ariaValueMin = b.ariaValueMin ∧
  a.ariaValueMax = b.ariaValueMax ∧ a.ariaValueNow = b.ariaValueNow ∧
  a.ariaPlaceholder = b.ariaPlaceholder

/-- On a controller without a bound input whose control kind is not
`number`, not text-like, not range-like, not `file` and not `select`, the
`#initInternals` prelude completes and only touches the `name`,
disabled/required/readonly reflections, the `initialValue` snapshot and
the validity snapshot: the canonical value and every role/ARIA cell
survive unchanged. -/
theorem initPrelude_plain (P : Platform) (e : Elem)
    (hin : e.input = none)
    (hnum : (e.fc.control == "number") = false)
    (htext : isTextFormControl (some e.fc) = false)
    (hrange : isRangeOrNumberFormControl e.fc = false)
    (hfile : (e.fc.control == "file") = false)
    (hsel : (e.fc.control == "select") = false) :
    ∃ e', initPrelude P e = some e' ∧
      e'.fc = e.fc ∧ e'.value = e.value ∧ e'.input = none ∧
      e'.initialValue = e.fc.value ∧ e'.valueSource = e.valueSource ∧
      e'.checkedSource = e.checkedSource ∧ e'.form = e.form ∧
      ariaAgree e' e := by
  have A : (initStage1 e).fc = e.fc ∧ (initStage1 e).input = none ∧
      (initStage1 e).value = e.value ∧ (initStage1 e).initialValue = e.fc.value ∧
      (initStage1 e).valueSource = e.valueSource ∧
      (initStage1 e).checkedSource = e.checkedSource ∧ (initStage1 e).form = e.form ∧
      ariaAgree (initStage1 e) e := by
    simp [initStage1, setName_eq, Elem.setDisabled, hin, ariaAgree]
  obtain ⟨Afc, Ain, Av, Aiv, Avs, Acs, Afo, Aar⟩ := A
  obtain ⟨Ar, Aac, Aap, Aax, Aah, Aaa, Aam, Aal, Aavm, Aavx, Aavn, Aapl⟩ := Aar
  obtain ⟨e1, h1⟩ := setRequired_noInput_isSome P (initStage1 e)
    ((initStage1 e).fc.required.getD false) Ain
    (by rw [Afc]; exact hnum) (by rw [Afc]; exact htext)
  have c1 := setRequired_noInput_char P (initStage1 e) _ e1 Ain h1
  have B : e1.fc = e.fc ∧ e1.input = none ∧ e1.value = e.value ∧
      e1.initialValue = e.fc.value ∧ e1.valueSource = e.valueSource ∧
      e1.checkedSource = e.checkedSource ∧ e1.form = e.form ∧ ariaAgree e1 e := by
    rw [c1]
    exact ⟨Afc, Ain, Av, Aiv, Avs, Acs, Afo,
      Ar, Aac, Aap, Aax, Aah, Aaa, Aam, Aal, Aavm, Aavx, Aavn, Aapl⟩
  obtain ⟨Bfc, Bin, Bv, Biv, Bvs, Bcs, Bfo, Bar⟩ := B
  obtain ⟨Br, Bac, Bap, Bax, Bah, Baa, Bam, Bal, Bavm, Bavx, Bavn, Bapl⟩ := Bar
  have C : (initStage2 e1).fc = e.fc ∧ (initStage2 e1).input = none ∧
      (initStage2 e1).value = e.value ∧ (initStage2 e1).initialValue = e.fc.value ∧
      (initStage2 e1).valueSource = e.valueSource ∧
      (initStage2 e1).checkedSource = e.checkedSource ∧ (initStage2 e1).form = e.form ∧
      ariaAgree (initStage2 e1) e := by
    unfold initStage2
    simp [Elem.setReadOnly, Bin, Bfc, htext, ariaAgree, Bv, Biv, Bvs, Bcs, Bfo,
      Br, Bac, Bap, Bax, Bah, Baa, Bam, Bal, Bavm, Bavx, Bavn, Bapl]
  obtain ⟨Cfc, Cin, Cv, Civ, Cvs, Ccs, Cfo, Car⟩ := C
  obtain ⟨Cr, Cac, Cap, Cax, Cah, Caa, Cam, Cal, Cavm, Cavx, Cavn, Capl⟩ := Car
  have h3 : initStage3 P (initStage2 e1) = some (initStage2 e1) := by
    unfold initStage3
    rw [Cfc, hrange]
    rfl
  have h4 : initStage4 (initStage2 e1) = initStage2 e1 := by
    unfold initStage4
    simp [Cfc, hfile, hsel]
  obtain ⟨e', hu⟩ := updateValidityE_isSome_noPattern P (initStage2 e1)
    (by rw [Cfc]; exact hnum) (by rw [Cfc]; exact htext)
  have su := updateValidityE_shape P _ _ hu
  refine ⟨e', ?_, ?_, ?_, ?_, ?_, ?_, ?_, ?_, ?_⟩
  · unfold initPrelude
    simp only [Option.bind_eq_bind]
    rw [h1]
    simp only [Option.some_bind]
    rw [h3]
    simp only [Option.some_bind]
    rw [h4]
    exact hu
  · rw [su]; exact Cfc
  · rw [su]; exact Cv
  · rw [su]; exact Cin
  · rw [su]; exact Civ
  · rw [su]; exact Cvs
  · rw [su]; exact Ccs
  · rw [su]; exact Cfo
  · rw [su]
    exact ⟨Cr, Cac, Cap, Cax, Cah, Caa, Cam, Cal, Cavm, Cavx, Cavn, Capl⟩

end S2P

namespace S2P

/-! ## The unknown-control fall-through of the `#initInternals` switch -/

/-- The control discriminants the `#initInternals` switch recognizes. -/
def knownControls : List String :=
  ["file", "image", "button", "select", "checkbox", "radio", "textarea",
   "password", "email", "tel", "url", "search", "text",
   "number", "range", "time", "date", "datetime-local", "month", "week", "hidden"]

theorem ne_of_unknown (c k : String) (hmem : knownControls.contains k = true)
    (hk : knownControls.contains c = false) : ¬(c = k) := by
  intro h
  rw [h, hmem] at hk
  exact absurd hk (by decide)

theorem not_text_of_unknown (fc : FormControl)
    (hk : knownControls.contains fc.control = false) :
    isTextFormControl (some fc) = false := by
  have h1 := ne_of_unknown fc.control "text" (by decide) hk
  have h2 := ne_of_unknown fc.control "password" (by decide) hk
  have h3 := ne_of_unknown fc.control "email" (by decide) hk
  have h4 := ne_of_unknown fc.control "tel" (by decide) hk
  have h5 := ne_of_unknown fc.control "url" (by decide) hk
  have h6 := ne_of_unknown fc.control "search" (by decide) hk
  have h7 := ne_of_unknown fc.control "number" (by decide) hk
  simp [isTextFormControl, h1, h2, h3, h4, h5, h6, h7]

theorem not_range_of_unknown (fc : FormControl)
    (hk : knownControls.contains fc.control = false) :
    isRangeOrNumberFormControl fc = false := by
  have h1 := ne_of_unknown fc.control "number" (by decide) hk
  have h2 := ne_of_unknown fc.control "range" (by decide) hk
  have h3 := ne_of_unknown fc.control "time" (by decide) hk
  have h4 := ne_of_unknown fc.control "date" (by decide) hk
  have h5 := ne_of_unknown fc.control "datetime-local" (by decide) hk
  have h6 := ne_of_unknown fc.control "month" (by decide) hk
  have h7 := ne_of_unknown fc.control "week" (by decide) hk
  simp [isRangeOrNumberFormControl, RANGE_CONTROLS, h1, h2, h3, h4, h5, h6, h7]

/-- An unrecognized discriminant falls through the whole switch: the
element is written back unchanged. -/
theorem initSwitch_unknown (P : Platform) (w : World) (i : Nat) (e : Elem)
    (hk : knownControls.contains e.fc.control = false) :
    initSwitch P w i e = some (w.set i (.ours e)) := by
  have h1 := ne_of_unknown e.fc.control "file" (by decide) hk
  have h2 := ne_of_unknown e.fc.control "image" (by decide) hk
  have h3 := ne_of_unknown e.fc.control "button" (by decide) hk
  have h4 := ne_of_unknown e.fc.control "select" (by decide) hk
  have h5 := ne_of_unknown e.fc.control "checkbox" (by decide) hk
  have h6 := ne_of_unknown e.fc.control "radio" (by decide) hk
  have h7 := ne_of_unknown e.fc.control "textarea" (by decide) hk
  have h8 := ne_of_unknown e.fc.control "password" (by decide) hk
  have h9 := ne_of_unknown e.fc.control "email" (by decide) hk
  have h10 := ne_of_unknown e.fc.control "tel" (by decide) hk
  have h11 := ne_of_unknown e.fc.control "url" (by decide) hk
  have h12 := ne_of_unknown e.fc.control "search" (by decide) hk
  have h13 := ne_of_unknown e.fc.control "text" (by decide) hk
  have h14 := ne_of_unknown e.fc.control "number" (by decide) hk
  have h15 := ne_of_unknown e.fc.control "range" (by decide) hk
  have h16 := ne_of_unknown e.fc.control "time" (by decide) hk
  have h17 := ne_of_unknown e.fc.control "date" (by decide) hk
  have h18 := ne_of_unknown e.fc.control "datetime-local" (by decide) hk
  have h19 := ne_of_unknown e.fc.control "month" (by decide) hk
  have h20 := ne_of_unknown e.fc.control "week" (by decide) hk
  have h21 := ne_of_unknown e.fc.control "hidden" (by decide) hk
  unfold initSwitch
  simp [h1, h2, h3, h4, h5, h6, h7, h8, h9, h10, h11, h12, h13, h14, h15, h16,
    h17, h18, h19, h20, h21]

/-- The `tagnameMap` lookup is `undefined` for a discriminant unknown to
the switch and distinct from `color` (the one key the map knows and the
switch does not). -/
theorem tagnameMap_unknown (c : String)
    (hk : knownControls.contains c = false) (hcol : ¬(c = "color")) :
    tagnameMap c = none := by
  have h1 := ne_of_unknown c "text" (by decide) hk
  have h2 := ne_of_unknown c "checkbox" (by decide) hk
  have h3 := ne_of_unknown c "radio" (by decide) hk
  have h4 := ne_of_unknown c "hidden" (by decide) hk
  have h5 := ne_of_unknown c "password" (by decide) hk
  have h6 := ne_of_unknown c "email" (by decide) hk
  have h7 := ne_of_unknown c "number" (by decide) hk
  have h8 := ne_of_unknown c "tel" (by decide) hk
  have h9 := ne_of_unknown c "url" (by decide) hk
  have h10 := ne_of_unknown c "image" (by decide) hk
  have h11 := ne_of_unknown c "file" (by decide) hk
  have h12 := ne_of_unknown c "month" (by decide) hk
  have h13 := ne_of_unknown c "week" (by decide) hk
  have h14 := ne_of_unknown c "date" (by decide) hk
  have h15 := ne_of_unknown c "datetime-local" (by decide) hk
  have h16 := ne_of_unknown c "range" (by decide) hk
  have h17 := ne_of_unknown c "time" (by decide) hk
  have h18 := ne_of_unknown c "search" (by decide) hk
  have h19 := ne_of_unknown c "textarea" (by decide) hk
  have h20 := ne_of_unknown c "select" (by decide) hk
  unfold tagnameMap
  simp [h1, h2, h3, h4, h5, h6, h7, h8, h9, h10, h11, h12, h13, h14, h15, h16,
    h17, h18, h19, h20, hcol]

end S2P

namespace S2P

/-! ## Claim C8 — descriptors with an unrecognized control discriminant -/

/-- C8 counterexample: for the unrecognized discriminant `custom-slider`
the input-binding re-resolution of `#updateInput` does NOT complete
without throwing — the `tagnameMap` lookup is `undefined` and the
`_selector.endsWith` call raises a `TypeError`. -/
theorem C8_counterexample :
    knownControls.contains "custom-slider" = false ∧
    updateInputSelector "custom-slider" =
      .error "TypeError: Cannot read properties of undefined (reading 'endsWith')" :=
  ⟨by decide, rfl⟩

/-- C8 amended: assigning a descriptor with an unrecognized `control`
discriminant itself completes without error and resets the internals to a
neutral state (no role, no ARIA extras), but the input-binding
re-resolution of `#updateInput` then throws a `TypeError` instead of
degrading gracefully. -/
theorem C8_unknown_control_amended (P : Platform) (w : World) (i : Nat) (e : Elem)
    (d : FormControl)
    (he : w.get? i = some (.ours e)) (hin : e.input = none)
    (hk : knownControls.contains d.control = false)
    (hcol : ¬(d.control = "color")) :
    (∃ e', worldSetFormControl P w i d = some (w.set i (.ours e')) ∧
      e'.fc = d ∧ e'.input = none ∧ e'.role = none ∧ e'.ariaChecked = none ∧
      e'.ariaPressed = none ∧ e'.ariaExpanded = none ∧ e'.ariaHasPopup = none ∧
      e'.ariaAutoComplete = none ∧ e'.ariaMultiSelectable = none ∧
      e'.ariaMultiLine = none ∧ e'.ariaValueMin = none ∧ e'.ariaValueMax = none ∧
      e'.ariaValueNow = none ∧ e'.ariaPlaceholder = none) ∧
    updateInputSelector d.control =
      .error "TypeError: Cannot read properties of undefined (reading 'endsWith')" := by
  have hlt : i < w.length := (List.get?_eq_some.mp he).1
  have hin0 : ({ e with fc := d } : Elem).input = none := hin
  have hnum0 : (({ e with fc := d } : Elem).fc.control == "number") = false := by
    rw [beq_eq_false_iff_ne]
    exact ne_of_unknown _ _ (by decide) hk
  have htext0 : isTextFormControl (some ({ e with fc := d } : Elem).fc) = false :=
    not_text_of_unknown d hk
  have hrange0 : isRangeOrNumberFormControl ({ e with fc := d } : Elem).fc = false :=
    not_range_of_unknown d hk
  have hfile0 : (({ e with fc := d } : Elem).fc.control == "file") = false := by
    rw [beq_eq_false_iff_ne]
    exact ne_of_unknown _ _ (by decide) hk
  have hsel0 : (({ e with fc := d } : Elem).fc.control == "select") = false := by
    rw [beq_eq_false_iff_ne]
    exact ne_of_unknown _ _ (by decide) hk
  obtain ⟨e1, hr⟩ := resetInternalsE_isSome P { e with fc := d } hin0 hnum0 htext0
  obtain ⟨f1, v1, p1, vs1, cs1, iv1, fo1, n1, na1, in1, ad1, ar1, aro1, ap1, r1, ac1,
    apr1, aex1, ahp1, aac1, ams1, aml1, avm1, avx1, avn1, fi1, acc1⟩ :=
    resetInternalsE_fields P { e with fc := d } e1 hin0 hr
  have hnum1 : (e1.fc.control == "number") = false := by rw [f1]; exact hnum0
  have htext1 : isTextFormControl (some e1.fc) = false := by rw [f1]; exact htext0
  have hrange1 : isRangeOrNumberFormControl e1.fc = false := by rw [f1]; exact hrange0
  have hfile1 : (e1.fc.control == "file") = false := by rw [f1]; exact hfile0
  have hsel1 : (e1.fc.control == "select") = false := by rw [f1]; exact hsel0
  obtain ⟨e2, hp, pfc, pv, pin, piv, pvs, pcs, pfo, par⟩ :=
    initPrelude_plain P e1 in1 hnum1 htext1 hrange1 hfile1 hsel1
  obtain ⟨pr, pac, papr, pax, pah, paa, pam, pal, pavm, pavx, pavn, papl⟩ := par
  have hk2 : knownControls.contains e2.fc.control = false := by
    rw [pfc, f1]
    exact hk
  have hsw := initSwitch_unknown P (w.set i (.ours { e with fc := d })) i e2 hk2
  refine ⟨⟨e2, ?_, pfc.trans f1, pin, pr.trans r1, pac.trans ac1, papr.trans apr1,
      pax.trans aex1, pah.trans ahp1, paa.trans aac1, pam.trans ams1, pal.trans aml1,
      pavm.trans avm1, pavx.trans avx1, pavn.trans avn1, papl.trans ap1⟩, ?_⟩
  · unfold worldSetFormControl
    simp only [he]
    have hget : (w.set i (Node.ours { e with fc := d })).get? i =
        some (Node.ours { e with fc := d }) := List.get?_set_eq_of_lt _ hlt
    unfold worldInitInternals
    simp only [hget]
    simp only [Option.bind_eq_bind]
    rw [hr]
    simp only [Option.some_bind]
    rw [hp]
    simp only [Option.some_bind]
    rw [hsw]
    rw [List.set_set]
  · have hbtn := ne_of_unknown d.control "button" (by decide) hk
    unfold updateInputSelector
    simp [hbtn, tagnameMap_unknown d.control hk hcol]

end S2P

namespace S2P

/-- A descriptor with an unrecognized control discriminant. -/
def c8FC : FormControl := { control := "custom-slider" }

/-- A default controller for the C8 witness. -/
def c8Elem : Elem := {}

theorem C8_unknown_control_amended_witness :
    [Node.ours c8Elem].get? 0 = some (.ours c8Elem) ∧ c8Elem.input = none ∧
    knownControls.contains c8FC.control = false ∧ ¬(c8FC.control = "color") ∧
    ((∃ e', worldSetFormControl defaultPlatform [Node.ours c8Elem] 0 c8FC =
        some ([Node.ours c8Elem].set 0 (.ours e')) ∧
      e'.fc = c8FC ∧ e'.input = none ∧ e'.role = none ∧ e'.ariaChecked = none ∧
      e'.ariaPressed = none ∧ e'.ariaExpanded = none ∧ e'.ariaHasPopup = none ∧
      e'.ariaAutoComplete = none ∧ e'.ariaMultiSelectable = none ∧
      e'.ariaMultiLine = none ∧ e'.ariaValueMin = none ∧ e'.ariaValueMax = none ∧
      e'.ariaValueNow = none ∧ e'.ariaPlaceholder = none) ∧
    updateInputSelector c8FC.control =
      .error "TypeError: Cannot read properties of undefined (reading 'endsWith')") :=
  ⟨rfl, rfl, by decide, by decide,
    C8_unknown_control_amended defaultPlatform [Node.ours c8Elem] 0 c8Elem c8FC
      rfl rfl (by decide) (by decide)⟩

end S2P

namespace S2P

/-! ## The checkbox arm of the `#initInternals` switch -/

/-- The checked-setter tail completes normally on a controller without a
bound input whose control is neither `number` nor text-like, and leaves
the input unbound. -/
theorem checkedTail_noInput_isSome (P : Platform) (e : Elem) (b : Bool)
    (hin : e.input = none)
    (hnum : (e.fc.control == "number") = false)
    (htext : isTextFormControl (some e.fc) = false) :
    ∃ e', Elem.checkedTail P e b = some e' ∧ e'.input = none := by
  have hminp : (checkedMirror e b).input = none := by
    simp [checkedMirror, hin]
  have hmfc : (checkedMirror e b).fc = e.fc := (checkedMirror_fields e b).2.2.2.2.1
  unfold Elem.checkedTail
  by_cases heq : ((checkedMirror e b).value ==
      (if b then some ((checkedMirror e b).initialValue.getD (.str "on")) else none)) = true
  · have hsv : Elem.setValue P (checkedMirror e b)
        (if b then some ((checkedMirror e b).initialValue.getD (.str "on")) else none) =
        some (checkedMirror e b) := by
      unfold Elem.setValue
      rw [if_pos heq]
    rw [hsv]
    exact ⟨_, rfl, hminp⟩
  · rw [Bool.not_eq_true] at heq
    rw [setValue_eq P _ _ heq]
    obtain ⟨e3, h3⟩ := updateValidityE_isSome_noPattern P
      (setValuePost (checkedMirror e b)
        (if b then some ((checkedMirror e b).initialValue.getD (.str "on")) else none))
      (by show ((checkedMirror e b).fc.control == "number") = false
          rw [hmfc]; exact hnum)
      (by show isTextFormControl (some (checkedMirror e b).fc) = false
          rw [hmfc]; exact htext)
    have hsh := updateValidityE_shape P _ _ h3
    have h3in : e3.input = none := by
      rw [hsh]
      show (setValuePost (checkedMirror e b)
        (if b then some ((checkedMirror e b).initialValue.getD (.str "on")) else none)).input
        = none
      simp [setValuePost, hminp]
    rw [h3]
    exact ⟨_, rfl, h3in⟩

theorem checked_of_ariaChecked (e : Elem) (b : Bool)
    (h : e.ariaChecked = some (jsBoolStr b)) : e.checked = b := by
  unfold Elem.checked
  rw [h]
  cases b <;> decide

/-- The `checkbox` arm of the `#initInternals` switch: store the role and
the provenance tag, then assign `checked = (checked ?? false) ||
(defaultChecked ?? false)`. -/
theorem initSwitch_checkbox (P : Platform) (w : World) (i : Nat) (e : Elem)
    (hc : e.fc.control = "checkbox") :
    initSwitch P w i e =
      worldSetChecked P
        (w.set i (.ours { e with role := some "checkbox", checkedSource := "init-checkbox" })) i
        ((e.fc.checked.getD false) || (e.fc.defaultChecked.getD false)) := by
  unfold initSwitch
  simp +decide [hc]

/-- On a checkbox controller without a bound input, `#initInternals`
completes, derives the role `checkbox`, and assigns the checked state from
`(checked ?? false) || (defaultChecked ?? false)` of the descriptor, with
the canonical value re-derived accordingly. -/
theorem worldInitInternals_checkbox (P : Platform) (w : World) (i : Nat) (e : Elem)
    (he : w.get? i = some (.ours e)) (hin : e.input = none)
    (hcb : e.fc.control = "checkbox") :
    ∃ e', worldInitInternals P w i = some (w.set i (.ours e')) ∧
      e'.fc = e.fc ∧ e'.input = none ∧ e'.role = some "checkbox" ∧
      e'.ariaChecked =
        some (jsBoolStr ((e.fc.checked.getD false) || (e.fc.defaultChecked.getD false))) ∧
      e'.checked = ((e.fc.checked.getD false) || (e.fc.defaultChecked.getD false)) ∧
      e'.value = (if (e.fc.checked.getD false) || (e.fc.defaultChecked.getD false)
        then some (e.fc.value.getD (.str "on")) else none) := by
  have hlt : i < w.length := (List.get?_eq_some.mp he).1
  have hnum : (e.fc.control == "number") = false := by rw [hcb]; decide
  have htext : isTextFormControl (some e.fc) = false := by
    simp only [isTextFormControl]
    rw [hcb]
    decide
  have hrange : isRangeOrNumberFormControl e.fc = false := by
    simp only [isRangeOrNumberFormControl]
    rw [hcb]
    decide
  have hfile : (e.fc.control == "file") = false := by rw [hcb]; decide
  have hsel : (e.fc.control == "select") = false := by rw [hcb]; decide
  obtain ⟨e1, hr⟩ := resetInternalsE_isSome P e hin hnum htext
  obtain ⟨f1, v1, p1, vs1, cs1, iv1, fo1, n1, na1, in1, ad1, ar1, aro1, ap1, r1, ac1,
    apr1, aex1, ahp1, aac1, ams1, aml1, avm1, avx1, avn1, fi1, acc1⟩ :=
    resetInternalsE_fields P e e1 hin hr
  have hnum1 : (e1.fc.control == "number") = false := by rw [f1]; exact hnum
  have htext1 : isTextFormControl (some e1.fc) = false := by rw [f1]; exact htext
  have hrange1 : isRangeOrNumberFormControl e1.fc = false := by rw [f1]; exact hrange
  have hfile1 : (e1.fc.control == "file") = false := by rw [f1]; exact hfile
  have hsel1 : (e1.fc.control == "select") = false := by rw [f1]; exact hsel
  obtain ⟨e2, hp, pfc, pv, pin, piv, pvs, pcs, pfo, par⟩ :=
    initPrelude_plain P e1 in1 hnum1 htext1 hrange1 hfile1 hsel1
  obtain ⟨pr, pac, papr, pax, pah, paa, pam, pal, pavm, pavx, pavn, papl⟩ := par
  have e2fc : e2.fc = e.fc := pfc.trans f1
  have hc2 : e2.fc.control = "checkbox" := by rw [e2fc]; exact hcb
  have hsw := initSwitch_checkbox P w i e2 hc2
  have he2 : (w.set i (Node.ours
      { e2 with role := some "checkbox", checkedSource := "init-checkbox" })).get? i =
      some (Node.ours { e2 with role := some "checkbox", checkedSource := "init-checkbox" }) :=
    List.get?_set_eq_of_lt _ hlt
  have hnr2 : (((e2.fc.checked.getD false) || (e2.fc.defaultChecked.getD false)) &&
      (({ e2 with role := some "checkbox", checkedSource := "init-checkbox" } : Elem).fc.control
        == "radio")) = false := by
    have hx :
        (({ e2 with role := some "checkbox", checkedSource := "init-checkbox" } : Elem).fc.control
          == "radio") = false := by
      show (e2.fc.control == "radio") = false
      rw [hc2]
      decide
    rw [hx, Bool.and_false]
  have hws := worldSetChecked_nonradio P
    (w.set i (Node.ours { e2 with role := some "checkbox", checkedSource := "init-checkbox" }))
    i ((e2.fc.checked.getD false) || (e2.fc.defaultChecked.getD false))
    { e2 with role := some "checkbox", checkedSource := "init-checkbox" } he2 hnr2
  have hg :
      (({ e2 with role := some "checkbox", checkedSource := "init-checkbox" } : Elem).ariaChecked.isSome &&
      (({ e2 with role := some "checkbox", checkedSource := "init-checkbox" } : Elem).checked ==
        ((e2.fc.checked.getD false) || (e2.fc.defaultChecked.getD false)))) = false := by
    have hacn :
        ({ e2 with role := some "checkbox", checkedSource := "init-checkbox" } : Elem).ariaChecked
          = none := pac.trans ac1
    rw [hacn]
    rfl
  rw [hg] at hws
  simp only [Bool.false_eq_true, if_false] at hws
  obtain ⟨e3, h3, h3in⟩ := checkedTail_noInput_isSome P
    { { e2 with role := some "checkbox", checkedSource := "init-checkbox" } with
      ariaChecked := some (jsBoolStr
        ((e2.fc.checked.getD false) || (e2.fc.defaultChecked.getD false))) }
    ((e2.fc.checked.getD false) || (e2.fc.defaultChecked.getD false))
    pin (by show (e2.fc.control == "number") = false; rw [hc2]; decide)
    (by show isTextFormControl (some e2.fc) = false
        simp only [isTextFormControl]
        rw [hc2]
        decide)
  obtain ⟨tac, tval, tcs, trole, tfc, tiv, tfo, tna⟩ := checkedTail_char P _ _ e3 h3
  refine ⟨e3, ?_, ?_, h3in, ?_, ?_, ?_, ?_⟩
  · unfold worldInitInternals
    simp only [he]
    simp only [Option.bind_eq_bind]
    rw [hr]
    simp only [Option.some_bind]
    rw [hp]
    simp only [Option.some_bind]
    rw [hsw, hws, h3]
    simp only [Option.map_some']
    rw [List.set_set]
  · exact tfc.trans e2fc
  · exact trole
  · rw [tac]
    show some (jsBoolStr ((e2.fc.checked.getD false) || (e2.fc.defaultChecked.getD false))) = _
    rw [e2fc]
  · apply checked_of_ariaChecked
    rw [tac]
    show some (jsBoolStr ((e2.fc.checked.getD false) || (e2.fc.defaultChecked.getD false))) = _
    rw [e2fc]
  · rw [tval]
    show (if (e2.fc.checked.getD false) || (e2.fc.defaultChecked.getD false)
        then some (e2.initialValue.getD (.str "on")) else none) = _
    rw [piv, f1, e2fc]

end S2P

namespace S2P

/-! ## Claim C4 — form reset -/

/-- C4 amended: on a checkbox controller without a bound input whose
descriptor carries `defaultChecked`, `formResetCallback` completes, but
the final checked state is `(checked ?? false) || (defaultChecked ??
false)` of the descriptor — the restore-to-`defaultChecked` step is
immediately overwritten by the re-initialization `#initInternals` runs
last, which re-derives `checked` from the descriptor. -/
theorem C4_reset_checkbox_amended (P : Platform) (w : World) (i : Nat) (e : Elem)
    (he : w.get? i = some (.ours e)) (hin : e.input = none)
    (hcb : e.fc.control = "checkbox") (hdc : e.fc.defaultChecked.isSome = true) :
    ∃ e', worldFormResetCallback P w i = some (w.set i (.ours e')) ∧
      e'.checked = ((e.fc.checked.getD false) || (e.fc.defaultChecked.getD false)) ∧
      e'.value = (if (e.fc.checked.getD false) || (e.fc.defaultChecked.getD false)
        then some (e.fc.value.getD (.str "on")) else none) := by
  have hlt : i < w.length := (List.get?_eq_some.mp he).1
  unfold worldFormResetCallback
  simp only [he]
  rw [if_pos hdc]
  have heR : (w.set i (Node.ours { e with checkedSource := "reset" })).get? i =
      some (Node.ours { e with checkedSource := "reset" }) :=
    List.get?_set_eq_of_lt _ hlt
  have hnrR : ((e.fc.defaultChecked.getD false) &&
      (({ e with checkedSource := "reset" } : Elem).fc.control == "radio")) = false := by
    have hx : (({ e with checkedSource := "reset" } : Elem).fc.control == "radio") = false := by
      show (e.fc.control == "radio") = false
      rw [hcb]
      decide
    rw [hx, Bool.and_false]
  have hwsR := worldSetChecked_nonradio P
    (w.set i (.ours { e with checkedSource := "reset" })) i
    (e.fc.defaultChecked.getD false) { e with checkedSource := "reset" } heR hnrR
  by_cases hgR : (({ e with checkedSource := "reset" } : Elem).ariaChecked.isSome &&
      (({ e with checkedSource := "reset" } : Elem).checked ==
        (e.fc.defaultChecked.getD false))) = true
  · rw [if_pos hgR] at hwsR
    obtain ⟨e', hI, Ifc, Iin, Irole, Iac, Ichk, Ival⟩ := worldInitInternals_checkbox P
      (w.set i (.ours { e with checkedSource := "reset" })) i
      { e with checkedSource := "reset" } heR hin hcb
    refine ⟨e', ?_, Ichk, Ival⟩
    simp only [Option.bind_eq_bind]
    rw [hwsR]
    simp only [Option.some_bind]
    rw [hI, List.set_set]
  · rw [Bool.not_eq_true] at hgR
    rw [hgR] at hwsR
    simp only [Bool.false_eq_true, if_false] at hwsR
    obtain ⟨eT, hT, hTin⟩ := checkedTail_noInput_isSome P
      { { e with checkedSource := "reset" } with
        ariaChecked := some (jsBoolStr (e.fc.defaultChecked.getD false)) }
      (e.fc.defaultChecked.getD false) hin
      (by show (e.fc.control == "number") = false
          rw [hcb]
          decide)
      (by show isTextFormControl (some e.fc) = false
          simp only [isTextFormControl]
          rw [hcb]
          decide)
    obtain ⟨tac, tval, tcs, trole, tfc, tiv, tfo, tna⟩ := checkedTail_char P _ _ eT hT
    have hfcT : eT.fc = e.fc := tfc
    have hTcb : eT.fc.control = "checkbox" := by
      rw [hfcT]
      exact hcb
    rw [hT] at hwsR
    simp only [Option.map_some'] at hwsR
    rw [List.set_set] at hwsR
    have heT : (w.set i (Node.ours eT)).get? i = some (Node.ours eT) :=
      List.get?_set_eq_of_lt _ hlt
    obtain ⟨e', hI, Ifc, Iin, Irole, Iac, Ichk, Ival⟩ := worldInitInternals_checkbox P
      (w.set i (.ours eT)) i eT heT hTin hTcb
    refine ⟨e', ?_, ?_, ?_⟩
    · simp only [Option.bind_eq_bind]
      rw [hwsR]
      simp only [Option.some_bind]
      rw [hI, List.set_set]
    · rw [Ichk, hfcT]
    · rw [Ival, hfcT]

end S2P

namespace S2P

/-- A checkbox descriptor carrying `checked = true` but
`defaultChecked = false`. -/
def c4FC : FormControl :=
  { control := "checkbox", checked := some true, defaultChecked := some false }

/-- The controller state `c4FC` initializes to. -/
def c4Elem : Elem :=
  { fc := c4FC, value := some (.str "on"), role := some "checkbox",
    ariaChecked := some "true", ariaDisabled := some "false",
    ariaRequired := some "false", ariaReadOnly := some "false",
    formValue := some (.str "on") }

/-- C4 counterexample: a checkbox whose descriptor has
`defaultChecked = false` (but `checked = true`) is NOT restored to its
`defaultChecked` by `formResetCallback`: the closing `#initInternals`
re-derives `checked ?? false || defaultChecked ?? false` from the
descriptor, so the control stays checked after a form reset. -/
theorem C4_counterexample :
    worldSetFormControl defaultPlatform [Node.ours {}] 0 c4FC = some [Node.ours c4Elem] ∧
    worldFormResetCallback defaultPlatform [Node.ours c4Elem] 0 = some [Node.ours c4Elem] ∧
    c4Elem.checked = true ∧ c4FC.defaultChecked = some false :=
  ⟨rfl, rfl, by decide, by decide⟩

theorem C4_reset_checkbox_amended_witness :
    [Node.ours c4Elem].get? 0 = some (.ours c4Elem) ∧ c4Elem.input = none ∧
    c4Elem.fc.control = "checkbox" ∧ c4Elem.fc.defaultChecked.isSome = true ∧
    ∃ e', worldFormResetCallback defaultPlatform [Node.ours c4Elem] 0 =
        some ([Node.ours c4Elem].set 0 (.ours e')) ∧
      e'.checked = ((c4Elem.fc.checked.getD false) || (c4Elem.fc.defaultChecked.getD false)) ∧
      e'.value = (if (c4Elem.fc.checked.getD false) || (c4Elem.fc.defaultChecked.getD false)
        then some (c4Elem.fc.value.getD (.str "on")) else none) :=
  ⟨rfl, rfl, rfl, rfl,
    C4_reset_checkbox_amended defaultPlatform [Node.ours c4Elem] 0 c4Elem rfl rfl rfl rfl⟩

end S2P

namespace S2P

/-! ## Claim C6 — week range conversions -/

theorem jsNumber_nil : jsNumber "" = some 0 := by
  simp +decide [jsNumber, trimChars]

/-- The decimal ISO-week encoding exactly as the specification words it:
`YYYY-Www` becomes the number `YYYY.ww` (`Number` of the string with the
first `-W` replaced by `.`).  Written from the claim, for comparison with
the code's conversion. -/
def claimWeekDecimal (s : String) : Option ℚ := jsNumber (jsReplaceFirst s '-' 'W' ".")

/-- The `week` branch of `#convertForComparison` on a string argument is
the claimed decimal ISO-week encoding. -/
theorem convertWeek_eq_claim (P : Platform) (a : String) :
    convertForComparison P "week" (.v (some (.str a))) = claimWeekDecimal a := by
  unfold convertForComparison claimWeekDecimal
  by_cases hd : jsReplaceFirst a '-' 'W' "." = ""
  · simp +decide [hd, jsNumber_nil]
  · simp +decide [hd]

/-- A week descriptor with `min = "2021-W01"`, `max = "2021-W52"`. -/
def c6FC : FormControl :=
  { control := "week", min := some (.s "2021-W01"), max := some (.s "2021-W52") }

/-- The validity input for `c6FC` with the in-range value `"2021-W02"`. -/
def c6VIok : ValidityInput :=
  { fc := c6FC, value := some (.str "2021-W02"), ariaRequired := none,
    pattern := none, minLength := none, maxLength := none, input := none }

/-- The validity input for `c6FC` with the underflowing value
`"2020-W01"`. -/
def c6VIunder : ValidityInput :=
  { fc := c6FC, value := some (.str "2020-W01"), ariaRequired := none,
    pattern := none, minLength := none, maxLength := none, input := none }

/-- C6: for a `week` descriptor with string value, min and max, the
range flags are the numeric comparisons of the decimal ISO-week encodings
of the value against min and max; concretely, with min `2021-W01` and max
`2021-W52`, value `2021-W02` produces no flags and an empty message, while
value `2020-W01` produces exactly `rangeUnderflow` and the underflow
message parameterized by `2021-W01`. -/
theorem C6_week_range (P : Platform) (vi : ValidityInput) (pat : Option (String → Bool))
    (s mn mx : String)
    (hw : vi.fc.control = "week") (hv : vi.value = some (.str s))
    (hmn : vi.fc.min = some (.s mn)) (hmx : vi.fc.max = some (.s mx)) :
    (computeFlags P vi pat).rangeUnderflow
        = jsLt (claimWeekDecimal s) (claimWeekDecimal mn) ∧
    (computeFlags P vi pat).rangeOverflow
        = jsGt (claimWeekDecimal s) (claimWeekDecimal mx) ∧
    updateValidityCore P c6VIok = some ({}, "") ∧
    updateValidityCore P c6VIunder =
      some ({ rangeUnderflow := true }, "Value must be greater than or equal to 2021-W01.") := by
  refine ⟨?_, ?_, ?_, ?_⟩
  · simp +decide [computeFlags, isRangeOrNumberFormControl, RANGE_CONTROLS, hw, hv, hmn,
      convArgOfStrNum, convertWeek_eq_claim]
  · simp +decide [computeFlags, isRangeOrNumberFormControl, RANGE_CONTROLS, hw, hv, hmx,
      convArgOfStrNum, convertWeek_eq_claim]
  · simp +decide [updateValidityCore, compilePatternStep, stepMessageBlock, computeFlags,
      c6VIok, c6FC, isRangeOrNumberFormControl, RANGE_CONTROLS, isTextFormControl,
      convertForComparison, convArgOfStrNum, jsLt, jsGt, jsNumber, trimChars, natOfDigits,
      jsStrOfValue, jsReplaceFirst, replaceFirst2, splitOn2, joinSep2,
      jsNumberOfStrNum, jsNumberOfValue]
    norm_num
  · simp +decide [updateValidityCore, compilePatternStep, stepMessageBlock, computeFlags,
      c6VIunder, c6FC, isRangeOrNumberFormControl, RANGE_CONTROLS, isTextFormControl,
      convertForComparison, convArgOfStrNum, jsLt, jsGt, jsNumber, trimChars, natOfDigits,
      jsStrOfValue, jsReplaceFirst, replaceFirst2, splitOn2, joinSep2,
      jsNumberOfStrNum, jsNumberOfValue,
      strOfOptStrNum, strnumToString, parseVariables, interleavePieces]
    norm_num

theorem C6_week_range_witness :
    c6VIunder.fc.control = "week" ∧ c6VIunder.value = some (.str "2020-W01") ∧
    c6VIunder.fc.min = some (.s "2021-W01") ∧ c6VIunder.fc.max = some (.s "2021-W52") ∧
    ((computeFlags defaultPlatform c6VIunder none).rangeUnderflow
        = jsLt (claimWeekDecimal "2020-W01") (claimWeekDecimal "2021-W01") ∧
     (computeFlags defaultPlatform c6VIunder none).rangeOverflow
        = jsGt (claimWeekDecimal "2020-W01") (claimWeekDecimal "2021-W52") ∧
     updateValidityCore defaultPlatform c6VIok = some ({}, "") ∧
     updateValidityCore defaultPlatform c6VIunder =
       some ({ rangeUnderflow := true },
         "Value must be greater than or equal to 2021-W01.")) :=
  ⟨rfl, rfl, rfl, rfl,
    C6_week_range defaultPlatform c6VIunder none "2020-W01" "2021-W01" "2021-W52"
      rfl rfl rfl rfl⟩

end S2P

namespace S2P

/-! ## Claim C2 — validation-message precedence -/

/-- The message of the first true flag in the REVERSED order
tooShort > tooLong > patternMismatch > badInput > rangeOverflow >
rangeUnderflow > valueMissing (the overwrite chain of `#updateValidity`
makes the LAST true flag of the claimed order win; `customError` is never
consulted). -/
def lastFlagMessage (vi : ValidityInput) (flags : ValidityFlags) : String :=
  if flags.tooShort then parseVariables TOO_SHORT_MESSAGE [intToString (vi.minLength.getD 0)]
  else if flags.tooLong then parseVariables TOO_LONG_MESSAGE [intToString (vi.maxLength.getD 0)]
  else if flags.patternMismatch then PATTERN_MISMATCH_MESSAGE
  else if flags.badInput then TYPE_MISMATCH_MESSAGE
  else if isRangeOrNumberFormControl vi.fc && flags.rangeOverflow then
    parseVariables RANGE_OVERFLOW_MESSAGE [strOfOptStrNum vi.fc.max]
  else if isRangeOrNumberFormControl vi.fc && flags.rangeUnderflow then
    parseVariables RANGE_UNDERFLOW_MESSAGE [strOfOptStrNum vi.fc.min]
  else if flags.valueMissing then MISSING_MESSAGE
  else ""

/-- A required number descriptor with `min = 5`. -/
def c2FC : FormControl := { control := "number", required := some true, min := some (.n 5) }

/-- The validity input for `c2FC` with value `""`. -/
def c2VI : ValidityInput :=
  { fc := c2FC, value := some (.str ""), ariaRequired := some "true",
    pattern := none, minLength := none, maxLength := none, input := none }

/-- C2 counterexample: with `required = true`, `min = 5` and value `""`
both `valueMissing` and `rangeUnderflow` are true (JS `Number('') = 0`),
and the resulting message is the range-underflow message, NOT the claimed
value-missing message — the later overwrite wins, so the claimed
precedence order (valueMissing before rangeUnderflow) is wrong. -/
theorem C2_counterexample :
    updateValidityCore defaultPlatform c2VI =
      some ({ valueMissing := true, rangeUnderflow := true },
        "Value must be greater than or equal to 5.") ∧
    ¬("Value must be greater than or equal to 5." = MISSING_MESSAGE) := by
  constructor
  · simp +decide [updateValidityCore, compilePatternStep, stepMessageBlock, computeFlags,
      c2VI, c2FC, isRangeOrNumberFormControl, RANGE_CONTROLS, isTextFormControl,
      convertForComparison, convArgOfStrNum, jsLt, jsGt, jsNumber, trimChars, natOfDigits,
      jsStrOfValue, jsNumberOfStrNum, jsNumberOfValue, strOfOptStrNum, strnumToString,
      jsNumToString, decimalString, natToString, natDigitsAux, parseVariables, splitOn2,
      interleavePieces]
  · decide

/-- C2 amended: when the validity computation completes on a controller
without a bound input and the step-mismatch flag is off, the stored
message is that of the LAST true flag in the claimed order — equivalently
the first true flag in the REVERSED order tooShort > tooLong >
patternMismatch > badInput > rangeOverflow > rangeUnderflow >
valueMissing — and `customError` is never consulted. -/
theorem C2_message_amended (P : Platform) (vi : ValidityInput)
    (flags : ValidityFlags) (m : String)
    (h : updateValidityCore P vi = some (flags, m))
    (hin : vi.input = none)
    (hsm : flags.stepMismatch = false) :
    m = lastFlagMessage vi flags := by
  unfold updateValidityCore at h
  cases hp : compilePatternStep P vi with
  | none =>
    rw [hp] at h
    simp at h
  | some pat =>
    rw [hp] at h
    simp only [Option.bind_eq_bind, Option.some_bind] at h
    rw [Option.bind_eq_some] at h
    obtain ⟨m4, hm4, h⟩ := h
    rw [hin] at h
    rw [Option.some_inj] at h
    have hfl : computeFlags P vi pat = flags := congrArg Prod.fst h
    have hm : m = _ := (congrArg Prod.snd h).symm
    have hsm' : (computeFlags P vi pat).stepMismatch = false := by
      rw [hfl]
      exact hsm
    unfold stepMessageBlock at hm4
    rw [hsm'] at hm4
    simp only [Bool.and_false, Bool.false_eq_true, if_false, Option.some_inj] at hm4
    rw [hm, ← hm4]
    unfold lastFlagMessage
    rw [← hfl]

theorem C2_message_amended_witness :
    c2VI.input = none ∧
    ({ valueMissing := true, rangeUnderflow := true } : ValidityFlags).stepMismatch = false ∧
    "Value must be greater than or equal to 5." =
      lastFlagMessage c2VI { valueMissing := true, rangeUnderflow := true } := by
  have hEval : updateValidityCore defaultPlatform c2VI =
      some ({ valueMissing := true, rangeUnderflow := true },
        "Value must be greater than or equal to 5.") := by
    simp +decide [updateValidityCore, compilePatternStep, stepMessageBlock, computeFlags,
      c2VI, c2FC, isRangeOrNumberFormControl, RANGE_CONTROLS, isTextFormControl,
      convertForComparison, convArgOfStrNum, jsLt, jsGt, jsNumber, trimChars, natOfDigits,
      jsStrOfValue, jsNumberOfStrNum, jsNumberOfValue, strOfOptStrNum, strnumToString,
      jsNumToString, decimalString, natToString, natDigitsAux, parseVariables, splitOn2,
      interleavePieces]
  exact ⟨rfl, rfl,
    C2_message_amended defaultPlatform c2VI
      { valueMissing := true, rangeUnderflow := true }
      "Value must be greater than or equal to 5." hEval rfl rfl⟩

end S2P

namespace S2P

/-! ## Claim C3 — the `input`/`change` round trip -/

/-- A checked checkbox-typed bound input whose DOM value is `"on"`. -/
def c3Inp : InputState := { tag := "input", typ := "checkbox", value := "on", checked := true }

/-- An unchecked checkbox controller with `initialValue = "yes"` bound to
`c3Inp`. -/
def c3Elem : Elem :=
  { fc := { control := "checkbox" },
    initialValue := some (.str "yes"),
    role := some "checkbox", ariaChecked := some "false",
    input := some c3Inp }

/-- The state `#syncValue` actually produces on `[c3Elem]`. -/
def c3After : Elem :=
  { fc := { control := "checkbox" },
    initialValue := some (.str "yes"), value := some (.str "yes"),
    role := some "checkbox", ariaChecked := some "true", ariaDisabled := some "false",
    input := some { tag := "input", typ := "checkbox", value := "yes", checked := true },
    formValue := some (.str "yes") }

/-- C3 counterexample: an `input` event from a checked checkbox-typed
bound input with DOM value `"on"` does NOT leave the canonical value at
the input's `.value` and DOES write back into the input in the same
synchronous turn: the checked-sync in `#syncValue` re-derives the value as
`initialValue ?? 'on'` (here `"yes"`) through the value setter, whose
mirror write is no longer suppressed because the checked setter has
overwritten the provenance tag with `'checked'`. -/
theorem C3_counterexample :
    worldSyncValue defaultPlatform [Node.ours c3Elem] 0 = some [Node.ours c3After] ∧
    ¬(c3After.value = some (.str c3Inp.value)) ∧
    (∃ inp1, c3After.input = some inp1 ∧ ¬(inp1.value = c3Inp.value)) := by
  refine ⟨rfl, by decide, ?_⟩
  exact ⟨{ tag := "input", typ := "checkbox", value := "yes", checked := true },
    by decide, by decide⟩

/-- C3 amended: for an `input`/`change` event from a bound input that is
NOT checkbox/radio-typed, and whose value actually changed, the claim
holds: the canonical value and the native form value become exactly the
input's `.value`, and the input's own `.value` is not written back. -/
theorem C3_syncValue_amended (P : Platform) (w : World) (i : Nat) (e : Elem)
    (inp : InputState) (w' : World)
    (he : w.get? i = some (.ours e)) (hinp : e.input = some inp)
    (hnc : (inp.tag == "input" && (inp.typ == "checkbox" || inp.typ == "radio")) = false)
    (hne : (e.value == some (.str inp.value)) = false)
    (hs : worldSyncValue P w i = some w') :
    ∃ e1, w' = w.set i (.ours e1) ∧
      e1.value = some (.str inp.value) ∧
      e1.formValue = some (.str inp.value) ∧
      (∃ inp1, e1.input = some inp1 ∧ inp1.value = inp.value) := by
  unfold worldSyncValue at hs
  simp only [he] at hs
  simp only [hinp] at hs
  simp only [Option.bind_eq_bind] at hs
  rw [Option.bind_eq_some] at hs
  obtain ⟨e1, h1, hs⟩ := hs
  simp only [hnc, Bool.false_eq_true, if_false, Option.some_inj] at hs
  subst hs
  have hne' : (({ e with valueSource := "input", input := some inp } : Elem).value ==
      some (.str inp.value)) = false := hne
  rw [setValue_eq P _ _ hne'] at h1
  rw [Option.map_eq_some'] at h1
  obtain ⟨e2, h2, rfl⟩ := h1
  have hsh := updateValidityE_shape P _ _ h2
  refine ⟨{ e2 with valueSource := "property" }, rfl, ?_, ?_, ?_⟩
  · rw [hsh]
    rfl
  · rw [hsh]
    rfl
  · rw [hsh]
    exact ⟨{ inp with disabled := Elem.disabled e, value := inp.value },
      by simp [setValuePost, Elem.disabled], rfl⟩

/-- A text-typed bound input with DOM value `"abc"`. -/
def c3TextInp : InputState := { tag := "input", typ := "text", value := "abc" }

/-- A text controller bound to `c3TextInp`. -/
def c3TextElem : Elem := { fc := { control := "text" }, input := some c3TextInp }

/-- The state `#syncValue` produces on `[c3TextElem]`. -/
def c3TextAfter : Elem :=
  { fc := { control := "text" }, value := some (.str "abc"),
    ariaDisabled := some "false",
    input := some { tag := "input", typ := "text", value := "abc" },
    formValue := some (.str "abc") }

theorem C3_syncValue_amended_witness :
    [Node.ours c3TextElem].get? 0 = some (.ours c3TextElem) ∧
    c3TextElem.input = some c3TextInp ∧
    (c3TextInp.tag == "input" &&
      (c3TextInp.typ == "checkbox" || c3TextInp.typ == "radio")) = false ∧
    (c3TextElem.value == some (.str c3TextInp.value)) = false ∧
    ∃ e1, [Node.ours c3TextAfter] = [Node.ours c3TextElem].set 0 (.ours e1) ∧
      e1.value = some (.str c3TextInp.value) ∧
      e1.formValue = some (.str c3TextInp.value) ∧
      (∃ inp1, e1.input = some inp1 ∧ inp1.value = c3TextInp.value) :=
  ⟨rfl, rfl, by decide, by decide,
    C3_syncValue_amended defaultPlatform [Node.ours c3TextElem] 0 c3TextElem c3TextInp
      [Node.ours c3TextAfter] rfl rfl (by decide) (by decide) rfl⟩

end S2P

namespace S2P

/-! ## Claim C1 — radio-group exclusivity -/

/-- A sweep candidate whose name, form ownership and radio role all match
the assigning element ends unchecked whenever its visit completes. -/
theorem sweepOne_scope (P : Platform) (sel : String) (frm : Option Nat) (n n' : Node)
    (hname : Node.nameAttr n = some sel) (hform : Node.form n = frm)
    (hrole : Node.roleRadio n = true)
    (h : sweepOne P sel frm n = some n') :
    Node.checkedRead n' = false := by
  unfold sweepOne at h
  rcases frm with _ | f <;>
    simp only [hname, hform, hrole, beq_self_eq_true, Bool.not_true, Bool.false_eq_true,
      if_false, if_true] at h
  all_goals
    cases hc : Node.checkedRead n with
    | false =>
      rw [hc] at h
      simp only [Bool.false_eq_true, if_false, Option.some_inj] at h
      rw [← h]
      exact hc
    | true =>
      rw [hc] at h
      simp only [if_true] at h
      cases n with
      | ours e =>
        rw [Option.map_eq_some'] at h
        obtain ⟨e3, hset, rfl⟩ := h
        unfold Elem.setCheckedLocal at hset
        have hec : e.checked = true := hc
        rw [hec] at hset
        simp only [show ((true : Bool) == false) = false from rfl, Bool.and_false,
          Bool.false_eq_true, if_false] at hset
        obtain ⟨tac, -, -, -, -, -, -, -⟩ := checkedTail_char P _ _ e3 hset
        have hac : e3.ariaChecked = some (jsBoolStr false) := tac
        show e3.checked = false
        exact checked_of_ariaChecked e3 false hac
      | nativeInput r =>
        rw [Option.some_inj] at h
        rw [← h]
        rfl

/-- A sweep candidate that does not match on all of name, form ownership
and radio role is left untouched. -/
theorem sweepOne_skip (P : Platform) (sel : String) (frm : Option Nat) (n : Node)
    (h : ¬(Node.nameAttr n = some sel ∧ Node.form n = frm ∧ Node.roleRadio n = true)) :
    sweepOne P sel frm n = some n := by
  unfold sweepOne
  by_cases h1 : Node.nameAttr n = some sel
  · by_cases h2 : Node.form n = frm
    · have h3 : Node.roleRadio n = false := by
        cases h3 : Node.roleRadio n with
        | false => rfl
        | true => exact absurd ⟨h1, h2, h3⟩ h
      rcases frm with _ | f <;>
        simp [h1, h2, h3]
    · rcases hf : frm with _ | f
      · subst hf
        have : (Node.form n == none) = false := by
          rw [beq_eq_false_iff_ne]
          exact h2
        simp [h1, this]
      · subst hf
        have : (Node.form n == some f) = false := by
          rw [beq_eq_false_iff_ne]
          exact h2
        simp [h1, this]
  · have : (Node.nameAttr n == some sel) = false := by
      rw [beq_eq_false_iff_ne]
      exact h1
    simp [this]

/-- Pointwise characterization of a completed radio sweep: the length is
preserved, the assigning index is copied verbatim, and every other slot is
the completed visit of the original node. -/
theorem sweepList_pointwise (P : Platform) (sel : String) (frm : Option Nat) (selfIdx : Nat) :
    ∀ (l : World) (j : Nat) (l' : World), sweepList P sel frm selfIdx j l = some l' →
      l'.length = l.length ∧
      ∀ k n, l.get? k = some n →
        ((j + k = selfIdx → l'.get? k = some n) ∧
         (¬(j + k = selfIdx) →
           ∃ n', sweepOne P sel frm n = some n' ∧ l'.get? k = some n')) := by
  intro l
  induction l with
  | nil =>
    intro j l' h
    unfold sweepList at h
    rw [Option.some_inj] at h
    subst h
    exact ⟨rfl, fun k n hk => by simp at hk⟩
  | cons n0 rest ih =>
    intro j l' h
    unfold sweepList at h
    cases hhd : (if j = selfIdx then some n0 else sweepOne P sel frm n0) with
    | none =>
      rw [hhd] at h
      cases hrec : sweepList P sel frm selfIdx (j + 1) rest <;> rw [hrec] at h <;> simp at h
    | some a =>
      rw [hhd] at h
      cases hrec : sweepList P sel frm selfIdx (j + 1) rest with
      | none =>
        rw [hrec] at h
        simp at h
      | some b =>
        rw [hrec] at h
        rw [Option.some_inj] at h
        subst h
        obtain ⟨ihlen, ihpt⟩ := ih (j + 1) b hrec
        refine ⟨by simp [ihlen], ?_⟩
        intro k n hk
        cases k with
        | zero =>
          simp only [List.get?_cons_zero, Option.some_inj] at hk
          subst hk
          constructor
          · intro hsef
            have hj : j = selfIdx := by omega
            rw [if_pos hj, Option.some_inj] at hhd
            subst hhd
            simp
          · intro hne
            have hj : ¬(j = selfIdx) := by omega
            rw [if_neg hj] at hhd
            exact ⟨a, hhd, by simp⟩
        | succ k1 =>
          simp only [List.get?_cons_succ] at hk
          obtain ⟨ih1, ih2⟩ := ihpt k1 n hk
          constructor
          · intro hsef
            have := ih1 (by omega)
            simpa using this
          · intro hne
            obtain ⟨n', hswp, hget⟩ := ih2 (by omega)
            exact ⟨n', hswp, by simpa using hget⟩

end S2P

namespace S2P

/-- C1: assigning `checked = true` to a radio controller leaves, among the
controls sharing its interpolated name, its form ownership and the radio
role, exactly the assigned one checked — every other matching control ends
unchecked, and every control failing the name/form/role match is left
untouched.  For the no-op fast path (the controller is already checked)
the pre-state must already satisfy the exclusivity invariant, which the
`hpre` hypothesis supplies. -/
theorem C1_radio_exclusive (P : Platform) (w : World) (i : Nat) (e : Elem) (w' : World)
    (he : w.get? i = some (.ours e))
    (hctl : e.fc.control = "radio")
    (hpre : (e.ariaChecked.isSome && (e.checked == true)) = true →
      ∀ j n, w.get? j = some n → ¬(j = i) →
        Node.nameAttr n = some (selName e.fc) → Node.form n = e.form →
        Node.roleRadio n = true → Node.checkedRead n = false)
    (hs : worldSetChecked P w i true = some w') :
    (∃ e', w'.get? i = some (.ours e') ∧ e'.checked = true) ∧
    (∀ j n, w.get? j = some n → ¬(j = i) →
      Node.nameAttr n = some (selName e.fc) → Node.form n = e.form →
      Node.roleRadio n = true →
      ∃ n', w'.get? j = some n' ∧ Node.checkedRead n' = false) ∧
    (∀ j n, w.get? j = some n → ¬(j = i) →
      ¬(Node.nameAttr n = some (selName e.fc) ∧ Node.form n = e.form ∧
        Node.roleRadio n = true) →
      w'.get? j = some n) := by
  have hlt : i < w.length := (List.get?_eq_some.mp he).1
  unfold worldSetChecked at hs
  simp only [he] at hs
  by_cases hg : (e.ariaChecked.isSome && (e.checked == true)) = true
  · rw [if_pos hg] at hs
    rw [Option.some_inj] at hs
    subst hs
    obtain ⟨hg1, hg2⟩ := Bool.and_eq_true_iff.mp hg
    refine ⟨⟨e, he, eq_of_beq hg2⟩, ?_, ?_⟩
    · intro j n hj hne hname hform hrole
      exact ⟨n, hj, hpre hg j n hj hne hname hform hrole⟩
    · intro j n hj hne hns
      exact hj
  · rw [if_neg hg] at hs
    have hcond : (true &&
        (({ e with ariaChecked := some (jsBoolStr true) } : Elem).fc.control == "radio"))
        = true := by
      show (true && (e.fc.control == "radio")) = true
      rw [hctl]
      decide
    rw [if_pos hcond] at hs
    cases hsw : sweepList P (selName ({ e with ariaChecked := some (jsBoolStr true) } : Elem).fc)
        (({ e with ariaChecked := some (jsBoolStr true) } : Elem).form) i 0
        (w.set i (.ours { e with ariaChecked := some (jsBoolStr true) })) with
    | none =>
      rw [hsw] at hs
      simp at hs
    | some w2 =>
      rw [hsw] at hs
      obtain ⟨hlen2, hpt⟩ := sweepList_pointwise P _ _ i _ 0 w2 hsw
      have hw1i : (w.set i (Node.ours { e with ariaChecked := some (jsBoolStr true) })).get? i =
          some (Node.ours { e with ariaChecked := some (jsBoolStr true) }) :=
        List.get?_set_eq_of_lt _ hlt
      have hw2i : w2.get? i = some (Node.ours { e with ariaChecked := some (jsBoolStr true) }) :=
        (hpt i _ hw1i).1 (by omega)
      simp only [hw2i] at hs
      rw [Option.map_eq_some'] at hs
      obtain ⟨e3, ht3, rfl⟩ := hs
      obtain ⟨tac, tval, tcs, trole, tfc, tiv, tfo, tna⟩ := checkedTail_char P _ _ e3 ht3
      have hlt2 : i < w2.length := by
        rw [hlen2, List.length_set]
        exact hlt
      refine ⟨⟨e3, List.get?_set_eq_of_lt _ hlt2, ?_⟩, ?_, ?_⟩
      · have hac : e3.ariaChecked = some (jsBoolStr true) := tac
        exact checked_of_ariaChecked e3 true hac
      · intro j n hj hne hname hform hrole
        have hij : i ≠ j := fun hij => hne hij.symm
        have hw1j : (w.set i (Node.ours { e with
            ariaChecked := some (jsBoolStr true) })).get? j = some n := by
          rw [List.get?_set_ne _ _ hij]
          exact hj
        obtain ⟨n', hswn, hw2j⟩ := (hpt j n hw1j).2 (by omega)
        refine ⟨n', ?_, sweepOne_scope P _ _ n n' hname hform hrole hswn⟩
        rw [List.get?_set_ne _ _ hij]
        exact hw2j
      · intro j n hj hne hns
        have hij : i ≠ j := fun hij => hne hij.symm
        have hw1j : (w.set i (Node.ours { e with
            ariaChecked := some (jsBoolStr true) })).get? j = some n := by
          rw [List.get?_set_ne _ _ hij]
          exact hj
        obtain ⟨n', hswn, hw2j⟩ := (hpt j n hw1j).2 (by omega)
        rw [sweepOne_skip P _ _ n hns, Option.some_inj] at hswn
        subst hswn
        rw [List.get?_set_ne _ _ hij]
        exact hw2j

end S2P

namespace S2P

/-- Radio `A` of the witness group `grp`, initially checked. -/
def c1A : Elem :=
  { fc := { control := "radio", name := some "grp" }, nameAttr := some "grp",
    role := some "radio", ariaChecked := some "true",
    initialValue := some (.str "a"), value := some (.str "a") }

/-- Radio `B` of the witness group, initially unchecked — the assignment
target. -/
def c1B : Elem :=
  { fc := { control := "radio", name := some "grp" }, nameAttr := some "grp",
    role := some "radio", ariaChecked := some "false", initialValue := some (.str "b") }

/-- A checked native radio of the witness group. -/
def c1C : NativeRadio := { nameAttr := some "grp", checked := true }

/-- A checked radio outside the witness group (different name). -/
def c1D : Elem :=
  { fc := { control := "radio", name := some "other" }, nameAttr := some "other",
    role := some "radio", ariaChecked := some "true", value := some (.str "d") }

/-- The witness world. -/
def c1W : World := [.ours c1A, .ours c1B, .nativeInput c1C, .ours c1D]

/-- Radio `A` after the sweep: unchecked, value cleared. -/
def c1A2 : Elem :=
  { fc := { control := "radio", name := some "grp" }, nameAttr := some "grp",
    role := some "radio", ariaChecked := some "false", ariaDisabled := some "false",
    initialValue := some (.str "a") }

/-- Radio `B` after the assignment: checked, value re-derived. -/
def c1B2 : Elem :=
  { fc := { control := "radio", name := some "grp" }, nameAttr := some "grp",
    role := some "radio", ariaChecked := some "true", ariaDisabled := some "false",
    initialValue := some (.str "b"), value := some (.str "b"),
    formValue := some (.str "b") }

/-- The witness world after `checked = true` on `B`. -/
def c1W2 : World :=
  [.ours c1A2, .ours c1B2, .nativeInput { nameAttr := some "grp", checked := false },
   .ours c1D]

theorem C1_radio_exclusive_witness :
    c1W.get? 1 = some (.ours c1B) ∧ c1B.fc.control = "radio" ∧
    worldSetChecked defaultPlatform c1W 1 true = some c1W2 ∧
    ((∃ e', c1W2.get? 1 = some (.ours e') ∧ e'.checked = true) ∧
     (∀ j n, c1W.get? j = some n → ¬(j = 1) →
       Node.nameAttr n = some (selName c1B.fc) → Node.form n = c1B.form →
       Node.roleRadio n = true →
       ∃ n', c1W2.get? j = some n' ∧ Node.checkedRead n' = false) ∧
     (∀ j n, c1W.get? j = some n → ¬(j = 1) →
       ¬(Node.nameAttr n = some (selName c1B.fc) ∧ Node.form n = c1B.form ∧
         Node.roleRadio n = true) →
       c1W2.get? j = some n)) :=
  ⟨rfl, rfl, rfl,
    C1_radio_exclusive defaultPlatform c1W 1 c1B c1W2 rfl rfl
      (fun h => absurd h (by decide)) rfl⟩

end S2P
